import Mathlib

/-!
# Verification of the `TotalsService` totals / tax engine

A shallow embedding of the order & cart totals engine (`TotalsService`)
of this repository.  Monetary values and rates are rationals (`ℚ`),
quantities are naturals, fallible computations return `Except Err`.
The external collaborators (tax-line provider, tax-calculation strategy,
gift-card totals calculator) and the tax-inclusive-pricing feature flag
are packaged in an `Env` record and passed explicitly.
-/

namespace Totals

/-- Note: `Math.round` as used by `TotalsService.rounded` and inline in the
source: for a real (here rational) input it returns `⌊x + 1/2⌋`,
i.e. halves round toward positive infinity. -/
def jsRound (q : ℚ) : ℚ := (((q + 1/2).floor : ℤ) : ℚ)

/-- Embeds `TotalsService.rounded`, the engine's single rounding primitive;
the source delegates to `Math.round`. -/
def rounded (q : ℚ) : ℚ := jsRound q

/-- Modelled from the spec: the external `calculatePriceTaxAmount`
helper (from `../utils`, not part of this repository's sources).  With
`includesTax` it backs the tax amount out of a tax-inclusive price
(`price * taxRate / (1 + taxRate)`); otherwise it applies the rate to
the tax-exclusive price (`price * taxRate`). -/
def calculatePriceTaxAmount (price taxRate : ℚ) (includesTax : Bool) : ℚ :=
  if includesTax then price * taxRate / (1 + taxRate) else price * taxRate

/-- Region settings read by the engine. -/
structure Region where
  automatic_taxes : Bool
  gift_cards_taxable : Bool
deriving DecidableEq

/-- A line-item adjustment (`discount_id` is `null` for custom
adjustments). -/
structure Adjustment where
  discount_id : Option String
  amount : ℚ
deriving DecidableEq

/-- A tax line attached to a line item. -/
structure LineItemTaxLine where
  item_id : String
  rate : ℚ
deriving DecidableEq

/-- A tax line attached to a shipping method. -/
structure ShippingMethodTaxLine where
  shipping_method_id : String
  rate : ℚ
deriving DecidableEq

/-- Either kind of tax line, as returned by the tax-line provider and
consumed by the tax-calculation strategy. -/
inductive AnyTaxLine where
  | li : LineItemTaxLine → AnyTaxLine
  | sm : ShippingMethodTaxLine → AnyTaxLine
deriving DecidableEq

/-- A line item of a cart or order. -/
structure LineItem where
  id : String
  unit_price : ℚ
  quantity : ℕ
  allow_discounts : Bool
  includes_tax : Bool
  is_return : Bool
  tax_lines : Option (List LineItemTaxLine)
  adjustments : List Adjustment
  variant_id : Option String
deriving DecidableEq

/-- A shipping method on a cart or order. -/
structure ShippingMethod where
  id : String
  price : ℚ
  includes_tax : Bool
  tax_lines : List ShippingMethodTaxLine
deriving DecidableEq

/-- The rule type of a discount. -/
inductive DiscountRuleType where
  | percentage
  | fixed
  | free_shipping
deriving DecidableEq

/-- Note: `true` exactly on `free_shipping`. -/
def DiscountRuleType.isFreeShipping : DiscountRuleType → Bool
  | .free_shipping => true
  | _ => false

/-- A discount applied to a cart or order (only the fields the engine
reads). -/
structure Discount where
  id : String
  rule_type : DiscountRuleType
deriving DecidableEq

/-- An opaque gift card; the engine only forwards these to the
gift-card totals collaborator. -/
structure GiftCard where
  id : String
deriving DecidableEq

/-- An opaque gift-card redemption record, forwarded to the gift-card
totals collaborator. -/
structure GiftCardTransaction where
  id : String
  amount : ℚ
deriving DecidableEq

/-- The result of the gift-card totals collaborator. -/
structure GiftCardTotal where
  total : ℚ
  tax_total : ℚ
deriving DecidableEq

/-- A swap on an order (only `additional_items` is read by the
functions under verification). -/
structure Swap where
  additional_items : List LineItem
deriving DecidableEq

/-- A claim on an order (only `additional_items` is read). -/
structure ClaimOrder where
  additional_items : List LineItem
deriving DecidableEq

/-- A cart. -/
structure Cart where
  items : List LineItem
  discounts : List Discount
  shipping_methods : List ShippingMethod
  region : Region
  gift_cards : List GiftCard
  gift_card_transactions : List GiftCardTransaction
  shipping_address : Option String
  customer : Option String
  type : String
deriving DecidableEq

/-- An order.  `tax_rate = none` means the new tax-lines system,
`some r` the legacy flat-rate system. -/
structure Order where
  items : List LineItem
  discounts : List Discount
  shipping_methods : List ShippingMethod
  region : Region
  gift_cards : List GiftCard
  gift_card_transactions : List GiftCardTransaction
  shipping_address : Option String
  customer : Option String
  tax_rate : Option ℚ
  swaps : List Swap
  claims : List ClaimOrder
deriving DecidableEq

/-- The `Cart | Order` union the service operates on. -/
inductive CartOrOrder where
  | cart : Cart → CartOrOrder
  | order : Order → CartOrOrder
deriving DecidableEq

namespace CartOrOrder

def items : CartOrOrder → List LineItem
  | .cart c => c.items
  | .order o => o.items

def discounts : CartOrOrder → List Discount
  | .cart c => c.discounts
  | .order o => o.discounts

def shipping_methods : CartOrOrder → List ShippingMethod
  | .cart c => c.shipping_methods
  | .order o => o.shipping_methods

def region : CartOrOrder → Region
  | .cart c => c.region
  | .order o => o.region

def gift_cards : CartOrOrder → List GiftCard
  | .cart c => c.gift_cards
  | .order o => o.gift_cards

def gift_card_transactions : CartOrOrder → List GiftCardTransaction
  | .cart c => c.gift_card_transactions
  | .order o => o.gift_card_transactions

def shipping_address : CartOrOrder → Option String
  | .cart c => c.shipping_address
  | .order o => o.shipping_address

def customer : CartOrOrder → Option String
  | .cart c => c.customer
  | .order o => o.customer

/-- Note: `isOrder` from `../types/orders`. -/
def isOrderB : CartOrOrder → Bool
  | .cart _ => false
  | .order _ => true

/-- Note: `isCart` from `../types/cart`. -/
def isCartB : CartOrOrder → Bool
  | .cart _ => true
  | .order _ => false

/-- Note: `cartOrOrder.tax_rate` — only orders carry the field. -/
def taxRate? : CartOrOrder → Option ℚ
  | .cart _ => none
  | .order o => o.tax_rate

end CartOrOrder

/-- Errors raised by the engine: `MedusaError` of type
`UNEXPECTED_STATE` or `INVALID_DATA`, plus the raw JavaScript
`TypeError` reachable when `.length` is read off an `undefined`
tax-lines field. -/
inductive Err where
  | unexpectedState : String → Err
  | invalidData : String → Err
  | typeError : Err
deriving DecidableEq

/-- The per-item discount allocation entry of the allocation map. -/
structure DiscountAllocation where
  amount : ℚ
  unit_amount : ℚ
deriving DecidableEq

/-- A value of the `LineAllocationsMap`. -/
structure LineAllocation where
  discount : Option DiscountAllocation
deriving DecidableEq

/-- Note: `LineAllocationsMap`: a JavaScript object keyed by line-item id,
modelled as an association list. -/
abbrev AllocationMap := List (String × LineAllocation)

/-- Property read `m[k]` on the allocation map. -/
def allocLookup (m : AllocationMap) (k : String) : Option LineAllocation :=
  (m.find? (fun p => p.1 == k)).map (fun p => p.2)

/-- The structural parameter of `getAllocationMap` /
`getCalculationContext` (a cart or order, or any object with these
fields). -/
structure CalculationContextData where
  items : List LineItem
  discounts : List Discount
  swaps : List Swap
  claims : List ClaimOrder
  shipping_methods : List ShippingMethod
  shipping_address : Option String
  customer : Option String
  region : Region
deriving DecidableEq

/-- View a cart or order as calculation-context data (carts carry no
swaps or claims). -/
def CartOrOrder.toData : CartOrOrder → CalculationContextData
  | .cart c =>
    { items := c.items, discounts := c.discounts, swaps := [], claims := [],
      shipping_methods := c.shipping_methods, shipping_address := c.shipping_address,
      customer := c.customer, region := c.region }
  | .order o =>
    { items := o.items, discounts := o.discounts, swaps := o.swaps, claims := o.claims,
      shipping_methods := o.shipping_methods, shipping_address := o.shipping_address,
      customer := o.customer, region := o.region }

/-- Result element of `getLineDiscounts`. -/
structure LineDiscountAmount where
  item : LineItem
  amount : ℚ
  customAdjustmentsAmount : ℚ
deriving DecidableEq

/-- The order's own items merged with all swap and claim additional
items, in source order (`getLineDiscounts`, lines 727-740). -/
def mergedItems (data : CalculationContextData) : List LineItem :=
  let m1 := data.swaps.foldl (fun acc s => acc ++ s.additional_items) data.items
  data.claims.foldl (fun acc c => acc ++ c.additional_items) m1

/-- The per-item body of `getLineDiscounts` (lines 742-763). -/
def mkLineDiscount (discount : Option Discount) (item : LineItem) : LineDiscountAmount :=
  let adjustments : List Adjustment := item.adjustments
  let discountAdjustments : List Adjustment := match discount with
    | some d => adjustments.filter (fun a => a.discount_id == some d.id)
    | none => []
  let customAdjustments := adjustments.filter (fun a => a.discount_id == none)
  { item := item
    amount := if item.allow_discounts then (discountAdjustments.map (fun a => a.amount)).sum else 0
    customAdjustmentsAmount := (customAdjustments.map (fun a => a.amount)).sum }

/-- Embeds `TotalsService.getLineDiscounts`. -/
def getLineDiscounts (data : CalculationContextData) (discount : Option Discount) :
    List LineDiscountAmount :=
  (mergedItems data).map (mkLineDiscount discount)

/-- Options of `getAllocationMap`. -/
structure AllocationMapOptions where
  exclude_gift_cards : Bool := false
  exclude_discounts : Bool := false
deriving DecidableEq

/-- One step of the `getAllocationMap` accumulation loop (lines
456-478): a JavaScript object-key merge, rounding `unit_amount` only
when the key is fresh. -/
def allocStep (m : AllocationMap) (ld : LineDiscountAmount) : AllocationMap :=
  let adjustmentAmount := ld.amount + ld.customAdjustmentsAmount
  match allocLookup m ld.item.id with
  | some _ =>
      m.map (fun p => if p.1 == ld.item.id then
        (p.1, { discount := some { amount := adjustmentAmount,
                                   unit_amount := adjustmentAmount / (ld.item.quantity : ℚ) } })
        else p)
  | none =>
      m ++ [(ld.item.id,
        { discount := some { amount := adjustmentAmount,
                             unit_amount := jsRound (adjustmentAmount / (ld.item.quantity : ℚ)) } })]

/-- Embeds `TotalsService.getAllocationMap`. -/
def getAllocationMap (data : CalculationContextData) (options : AllocationMapOptions) :
    AllocationMap :=
  if options.exclude_discounts then [] else
  let discount := data.discounts.find? (fun d => !d.rule_type.isFreeShipping)
  let lineDiscounts := getLineDiscounts data discount
  lineDiscounts.foldl allocStep []

/-- Options of `getCalculationContext`. -/
structure CalculationContextOptions where
  is_return : Bool := false
  exclude_shipping : Bool := false
  exclude_gift_cards : Bool := false
  exclude_discounts : Bool := false
deriving DecidableEq

/-- The `TaxCalculationContext` handed to the collaborators. -/
structure TaxCalculationContext where
  shipping_address : Option String
  shipping_methods : List ShippingMethod
  customer : Option String
  region : Region
  is_return : Bool
  allocation_map : AllocationMap
deriving DecidableEq

/-- Embeds `TotalsService.getCalculationContext`. -/
def getCalculationContext (data : CalculationContextData)
    (options : CalculationContextOptions) : TaxCalculationContext :=
  let allocationMap := getAllocationMap data
    { exclude_gift_cards := options.exclude_gift_cards,
      exclude_discounts := options.exclude_discounts }
  let shippingMethods := if options.exclude_shipping then [] else data.shipping_methods
  { shipping_address := data.shipping_address
    shipping_methods := shippingMethods
    customer := data.customer
    region := data.region
    is_return := options.is_return
    allocation_map := allocationMap }

/-- The collaborators of the engine together with the
tax-inclusive-pricing feature flag: the tax-line provider
(`TaxProviderService.getTaxLines`), the tax-calculation strategy
(`ITaxCalculationStrategy.calculate`) and the gift-card totals
calculator (`NewTotalsService.getGiftCardTotals`).  They are external
to the engine and treated as opaque total functions. -/
structure Env where
  taxInclusiveEnabled : Bool
  getTaxLines : List LineItem → TaxCalculationContext → List AnyTaxLine
  calculate : List LineItem → List AnyTaxLine → TaxCalculationContext → ℚ
  getGiftCardTotals : ℚ → Region → List GiftCard → List GiftCardTransaction → GiftCardTotal

/-- Options of `getLineItemTotals`. -/
structure LineItemTotalsOptions where
  include_tax : Bool := false
  use_tax_lines : Bool := false
  exclude_gift_cards : Bool := false
  calculation_context : Option TaxCalculationContext := none
deriving DecidableEq

/-- The breakdown returned by `getLineItemTotals`.  `tax_lines` can be
`none` because the source may store an `undefined` tax-lines field in
it (reading `.length` off that value is the JavaScript `TypeError`
captured by `Err.typeError`). -/
structure LineItemTotals where
  unit_price : ℚ
  quantity : ℕ
  subtotal : ℚ
  tax_total : ℚ
  total : ℚ
  original_total : ℚ
  original_tax_total : ℚ
  tax_lines : Option (List AnyTaxLine)
  discount_total : ℚ
  raw_discount_total : ℚ
deriving DecidableEq

/-- Embeds `getLineItemTotals`, lines 780-815: the pre-tax seed breakdown. -/
def lineItemTotalsSeed (e : Env) (li : LineItem) (ctx : TaxCalculationContext)
    (o : LineItemTotalsOptions) : LineItemTotals :=
  let lineItemAllocation := allocLookup ctx.allocation_map li.id
  let subtotal :=
    if e.taxInclusiveEnabled && li.includes_tax && o.include_tax then 0
    else li.unit_price * (li.quantity : ℚ)
  let raw_discount_total :=
    ((lineItemAllocation.bind (fun a => a.discount)).map (fun d => d.amount)).getD 0
  let discount_total := jsRound raw_discount_total
  { unit_price := li.unit_price
    quantity := li.quantity
    subtotal := subtotal
    discount_total := discount_total
    total := subtotal - discount_total
    original_total := subtotal
    original_tax_total := 0
    tax_total := 0
    tax_lines := some ((li.tax_lines.getD []).map AnyTaxLine.li)
    raw_discount_total := raw_discount_total }

/-- Embeds `getLineItemTotals`, lines 822-847: the legacy (flat `tax_rate`)
tax computation on the breakdown. -/
def lineItemTotalsLegacy (e : Env) (li : LineItem) (r : ℚ) (t : LineItemTotals) :
    LineItemTotals :=
  let taxRate := r / 100
  let includesTax := e.taxInclusiveEnabled && li.includes_tax
  let taxIncludedInPrice :=
    if !li.includes_tax then 0
    else jsRound (calculatePriceTaxAmount li.unit_price taxRate includesTax)
  let subtotal := (li.unit_price - taxIncludedInPrice) * (li.quantity : ℚ)
  let original_tax_total := subtotal * taxRate
  let tax_total := (subtotal - t.discount_total) * taxRate
  { t with subtotal := subtotal
           total := subtotal + tax_total
           original_tax_total := original_tax_total
           tax_total := tax_total
           original_total := t.original_total + original_tax_total }

/-- Embeds `getLineItemTotals`, lines 848-881: tax-line resolution for the
new tax system (the result can be the `undefined` field). -/
def lineItemTotalsNewTaxLines (e : Env) (li : LineItem) (x : CartOrOrder)
    (o : LineItemTotalsOptions) (ctx : TaxCalculationContext) :
    Except Err (Option (List AnyTaxLine)) :=
  if o.use_tax_lines || x.isOrderB then
    if li.tax_lines.isNone && li.variant_id.isSome then
      .error (.unexpectedState "Tax Lines must be joined on items to calculate taxes")
    else .ok (li.tax_lines.map (fun ls => ls.map AnyTaxLine.li))
  else if li.is_return then
    if li.tax_lines.isNone && li.variant_id.isSome then
      .error (.unexpectedState "Return Line Items must join tax lines")
    else .ok (li.tax_lines.map (fun ls => ls.map AnyTaxLine.li))
  else .ok (some (e.getTaxLines [li] ctx))

/-- Embeds `getLineItemTotals`, lines 884-919: the strategy call on resolved
tax lines and the tax-inclusive reconciliation. -/
def lineItemTotalsFinish (e : Env) (li : LineItem) (ctx : TaxCalculationContext)
    (t : LineItemTotals) : Except Err LineItemTotals :=
  match t.tax_lines with
  | none => .error .typeError
  | some tls =>
    if tls.length > 0 then
      let tax_total := e.calculate [li] tls ctx
      let noDiscountContext := { ctx with allocation_map := [] }
      let original_tax_total := e.calculate [li] tls noDiscountContext
      let t1 := { t with tax_total := tax_total, original_tax_total := original_tax_total }
      let t2 :=
        if e.taxInclusiveEnabled && li.includes_tax then
          let subtotal := t1.subtotal + (li.unit_price * (li.quantity : ℚ) - original_tax_total)
          { t1 with subtotal := subtotal
                    total := t1.total + subtotal
                    original_total := t1.original_total + subtotal }
        else t1
      .ok { t2 with total := t2.total + tax_total
                    original_total := t2.original_total + original_tax_total }
    else .ok t

/-- Embeds `TotalsService.getLineItemTotals`. -/
def getLineItemTotals (e : Env) (li : LineItem) (x : CartOrOrder)
    (o : LineItemTotalsOptions) : Except Err LineItemTotals := do
  let ctx := o.calculation_context.getD (getCalculationContext x.toData
    { exclude_shipping := true, exclude_gift_cards := o.exclude_gift_cards })
  let t0 := lineItemTotalsSeed e li ctx o
  let t1 ←
    if o.include_tax then
      match x.taxRate? with
      | some r => pure (lineItemTotalsLegacy e li r t0)
      | none => do
          let taxLines ← lineItemTotalsNewTaxLines e li x o ctx
          pure { t0 with tax_lines := taxLines }
    else pure t0
  lineItemTotalsFinish e li ctx t1

/-- Options of `getSubtotal`. -/
structure SubtotalOptions where
  excludeNonDiscounts : Bool := false
deriving DecidableEq

/-- One step of the `getSubtotal` accumulation loop (lines 292-309):
skip non-discountable items when requested, otherwise add the item's
tax-adjusted subtotal. -/
def subtotalStep (e : Env) (x : CartOrOrder) (opts : SubtotalOptions) (acc : ℚ)
    (item : LineItem) : Except Err ℚ :=
  if opts.excludeNonDiscounts && !item.allow_discounts then pure acc
  else do
    let t ← getLineItemTotals e item x { include_tax := true, exclude_gift_cards := true }
    pure (acc + t.subtotal)

/-- Embeds `TotalsService.getSubtotal`. -/
def getSubtotal (e : Env) (x : CartOrOrder) (opts : SubtotalOptions) : Except Err ℚ := do
  let subtotal ← x.items.foldlM (subtotalStep e x opts) (0 : ℚ)
  pure (rounded subtotal)

/-- Options of `getShippingMethodTotals`. -/
structure GetShippingMethodTotalsOptions where
  include_tax : Bool := false
  use_tax_lines : Bool := false
  calculation_context : Option TaxCalculationContext := none
deriving DecidableEq

/-- The breakdown returned by `getShippingMethodTotals`. -/
structure ShippingMethodTotals where
  price : ℚ
  tax_total : ℚ
  total : ℚ
  subtotal : ℚ
  original_total : ℚ
  original_tax_total : ℚ
  tax_lines : List ShippingMethodTaxLine
deriving DecidableEq

/-- Embeds `getShippingMethodTotals`, lines 214-239: legacy flat-rate
shipping tax, or tax-line fetch when the method carries none. -/
def shippingMethodTotalsTax (e : Env) (sm : ShippingMethod) (x : CartOrOrder)
    (ctx : TaxCalculationContext) (t : ShippingMethodTotals) :
    Except Err ShippingMethodTotals :=
  match x.taxRate? with
  | some r =>
    .ok { t with original_tax_total := jsRound (t.price * (r / 100))
                 tax_total := jsRound (t.price * (r / 100)) }
  | none =>
    if t.tax_lines.length == 0 then
      let orderLines := e.getTaxLines x.items ctx
      let tls := orderLines.filterMap (fun l => match l with
        | .sm l' => if l'.shipping_method_id == sm.id then some l' else none
        | .li _ => none)
      if tls.length == 0 && x.isOrderB then
        .error (.unexpectedState "Tax Lines must be joined on shipping method to calculate taxes")
      else .ok { t with tax_lines := tls }
    else .ok t

/-- Embeds `getShippingMethodTotals`, lines 241-261: strategy call on the
method's tax lines and the tax-inclusive adjustment. -/
def shippingMethodTotalsApplyTaxLines (e : Env) (sm : ShippingMethod)
    (ctx : TaxCalculationContext) (t : ShippingMethodTotals) : ShippingMethodTotals :=
  if t.tax_lines.length > 0 then
    let includesTax := e.taxInclusiveEnabled && sm.includes_tax
    let ott := e.calculate [] (t.tax_lines.map AnyTaxLine.sm) ctx
    let t1 := { t with original_tax_total := ott, tax_total := ott }
    if includesTax then { t1 with subtotal := t1.subtotal - t1.tax_total }
    else { t1 with original_total := t1.original_total + t1.original_tax_total
                   total := t1.total + t1.tax_total }
  else t

/-- Embeds `TotalsService.getShippingMethodTotals`. -/
def getShippingMethodTotals (e : Env) (sm : ShippingMethod) (x : CartOrOrder)
    (opts : GetShippingMethodTotalsOptions) : Except Err ShippingMethodTotals := do
  let ctx0 := opts.calculation_context.getD
    (getCalculationContext x.toData { exclude_shipping := true })
  let calculationContext := { ctx0 with shipping_methods := [sm] }
  let totals0 : ShippingMethodTotals :=
    { price := sm.price, original_total := sm.price, total := sm.price, subtotal := sm.price,
      original_tax_total := 0, tax_total := 0, tax_lines := sm.tax_lines }
  let totals ←
    if opts.include_tax then do
      let t1 ← shippingMethodTotalsTax e sm x calculationContext totals0
      pure (shippingMethodTotalsApplyTaxLines e sm calculationContext t1)
    else pure totals0
  let hasFreeShipping := x.discounts.any (fun d => d.rule_type.isFreeShipping)
  if hasFreeShipping then
    pure { totals with total := 0, subtotal := 0, tax_total := 0 }
  else pure totals

/-- One step of the `getShippingTotal` accumulation loop (lines
322-333). -/
def shippingTotalStep (e : Env) (x : CartOrOrder) (total : ℚ) (sm : ShippingMethod) :
    Except Err ℚ := do
  let totals ← getShippingMethodTotals e sm x { include_tax := true }
  pure (total + totals.subtotal)

/-- Embeds `TotalsService.getShippingTotal`. -/
def getShippingTotal (e : Env) (x : CartOrOrder) : Except Err ℚ :=
  x.shipping_methods.foldlM (shippingTotalStep e x) (0 : ℚ)

/-- Embeds `TotalsService.getLineItemAdjustmentsTotal`. -/
def getLineItemAdjustmentsTotal (x : CartOrOrder) : ℚ :=
  (x.items.map (fun item => (item.adjustments.map (fun a => a.amount)).sum)).sum

/-- Embeds `TotalsService.getDiscountTotal`. -/
def getDiscountTotal (e : Env) (x : CartOrOrder) : Except Err ℚ := do
  let subtotal ← getSubtotal e x { excludeNonDiscounts := true }
  let discountTotal := jsRound (getLineItemAdjustmentsTotal x)
  if subtotal < 0 then pure (rounded (max subtotal discountTotal))
  else pure (rounded (min subtotal discountTotal))

/-- Options of `getGiftCardTotal`. -/
structure GiftCardTotalOptions where
  gift_cardable : Option ℚ := none
deriving DecidableEq

/-- Embeds `TotalsService.getGiftCardTotal`. -/
def getGiftCardTotal (e : Env) (x : CartOrOrder) (opts : GiftCardTotalOptions) :
    Except Err GiftCardTotal := do
  let giftCardable ←
    match opts.gift_cardable with
    | some g => pure g
    | none => do
        let subtotal ← getSubtotal e x {}
        let discountTotal ← getDiscountTotal e x
        pure (subtotal - discountTotal)
  pure (e.getGiftCardTotals giftCardable x.region x.gift_cards x.gift_card_transactions)

/-- Embeds `TotalsService.getTaxTotal`.  Returns `none` for a cart with
automatic taxes disabled that is not forced. -/
def getTaxTotal (e : Env) (x : CartOrOrder) (forceTaxes : Bool) :
    Except Err (Option ℚ) := do
  if x.isCartB && !forceTaxes && !x.region.automatic_taxes then
    pure none
  else
    let calculationContext := getCalculationContext x.toData {}
    let giftCardTotal ← getGiftCardTotal e x {}
    match x with
    | .order o =>
      if !(o.items.all (fun i => i.tax_lines.isSome)) then
        throw (.unexpectedState "Order tax calculations must have tax lines joined on line items")
      else
        match o.tax_rate with
        | none =>
          let itemLines := (o.items.map (fun li => (li.tax_lines.getD []).map AnyTaxLine.li)).flatten
          let shippingTaxLines :=
            (o.shipping_methods.map (fun sm => sm.tax_lines.map AnyTaxLine.sm)).flatten
          let taxLines := itemLines ++ shippingTaxLines
          let toReturn := e.calculate o.items taxLines calculationContext
          if o.region.gift_cards_taxable then
            pure (some (rounded (toReturn - giftCardTotal.tax_total)))
          else pure (some (rounded toReturn))
        | some r => do
          let subtotal ← getSubtotal e x {}
          let shippingTotal ← getShippingTotal e x
          let discountTotal ← getDiscountTotal e x
          pure (some (rounded
            ((subtotal - discountTotal - giftCardTotal.total + shippingTotal) * (r / 100))))
    | .cart c => do
      let baseLines := e.getTaxLines c.items calculationContext
      let taxLines ←
        if c.type == "swap" then do
          let returnLines ← c.items.foldlM (fun acc i =>
            if i.is_return then
              match i.tax_lines with
              | none => throw (.unexpectedState "Return Line Items must join tax lines")
              | some tl => pure (acc ++ tl.map AnyTaxLine.li)
            else pure acc) ([] : List AnyTaxLine)
          pure (baseLines ++ returnLines)
        else pure baseLines
      let toReturn := e.calculate c.items taxLines calculationContext
      if c.region.gift_cards_taxable then
        pure (some (rounded (toReturn - giftCardTotal.tax_total)))
      else pure (some (rounded toReturn))

/-- Options of `getTotal`. -/
structure GetTotalsOptions where
  exclude_gift_cards : Bool := false
  force_taxes : Bool := false
deriving DecidableEq

/-- Embeds `TotalsService.getTotal`. -/
def getTotal (e : Env) (x : CartOrOrder) (options : GetTotalsOptions) : Except Err ℚ := do
  let subtotal ← getSubtotal e x {}
  let taxTotalOpt ← getTaxTotal e x options.force_taxes
  let taxTotal := taxTotalOpt.getD 0
  let discountTotal ← getDiscountTotal e x
  let giftCardTotal ←
    if options.exclude_gift_cards then pure ({ total := 0, tax_total := 0 } : GiftCardTotal)
    else getGiftCardTotal e x {}
  let shippingTotal ← getShippingTotal e x
  pure (subtotal + taxTotal + shippingTotal - discountTotal - giftCardTotal.total)

/-- Embeds `TotalsService.getLineItemRefund`. -/
def getLineItemRefund (e : Env) (o : Order) (li : LineItem) : Except Err ℚ := do
  let allocationMap := getAllocationMap (CartOrOrder.order o).toData {}
  let includesTax := e.taxInclusiveEnabled && li.includes_tax
  let discountAmount :=
    (((allocLookup allocationMap li.id).bind (fun a => a.discount)).map
      (fun d => d.unit_amount)).getD 0 * (li.quantity : ℚ)
  match o.tax_rate with
  | some r =>
    let taxAmountIncludedInPrice :=
      if !includesTax then 0
      else jsRound (calculatePriceTaxAmount li.unit_price (r / 100) includesTax)
    let lineSubtotal := (li.unit_price - taxAmountIncludedInPrice) * (li.quantity : ℚ) - discountAmount
    pure (rounded (lineSubtotal * (1 + r / 100)))
  | none =>
    match li.tax_lines with
    | none => throw (.unexpectedState "Tax calculation did not receive tax_lines")
    | some tls =>
      let taxRate := (tls.map (fun l => l.rate / 100)).sum
      let taxAmountIncludedInPrice :=
        if !includesTax then 0
        else jsRound (calculatePriceTaxAmount li.unit_price taxRate includesTax)
      let lineSubtotal :=
        (li.unit_price - taxAmountIncludedInPrice) * (li.quantity : ℚ) - discountAmount
      let taxTotal := (tls.map (fun l => rounded (lineSubtotal * (l.rate / 100)))).sum
      pure (lineSubtotal + taxTotal)

/-- The item ids refundable on an order: its own items plus all swap
and claim additional items (`getRefundTotal`, lines 584-599). -/
def refundableIds (o : Order) : List String :=
  let itemIds := o.items.map (fun i => i.id)
  let withSwaps := o.swaps.foldl (fun acc s => acc ++ s.additional_items.map (fun el => el.id)) itemIds
  o.claims.foldl (fun acc c => acc ++ c.additional_items.map (fun el => el.id)) withSwaps

/-- The per-item body of the `getRefundTotal` loop (lines 602-612):
validate the id then compute the refund. -/
def refundStep (e : Env) (o : Order) (item : LineItem) : Except Err ℚ :=
  if item.id ∈ refundableIds o then getLineItemRefund e o item
  else throw (.invalidData "Line item does not exist on order")

/-- Embeds `TotalsService.getRefundTotal`. -/
def getRefundTotal (e : Env) (o : Order) (lineItems : List LineItem) : Except Err ℚ := do
  let refunds ← lineItems.mapM (refundStep e o)
  pure (rounded refunds.sum)

/-! ### Derived closed forms

Collaborator-free closed forms of the engine's computations on a
legacy order (`tax_rate` present) when the tax-inclusive-pricing flag
is disabled.  They are derived from the definitions above and proved
equal to them below; `getTaxTotal` on such an order factors through
them, which establishes its independence from the tax-line provider
and the tax-calculation strategy. -/

/-- The item subtotal computed by the legacy branch of
`getLineItemTotals` when the tax-inclusive-pricing flag is off. -/
def legacyItemSubtotal (r : ℚ) (li : LineItem) : ℚ :=
  (li.unit_price -
    (if !li.includes_tax then 0
     else jsRound (calculatePriceTaxAmount li.unit_price (r / 100) false))) * (li.quantity : ℚ)

/-- Closed form of the `getSubtotal` loop on a legacy order. -/
def legacySubtotalSum (o : Order) (r : ℚ) (excl : Bool) : ℚ :=
  o.items.foldl (fun acc li =>
    if excl && !li.allow_discounts then acc else acc + legacyItemSubtotal r li) 0

/-- Closed form of `getSubtotal` on a legacy order. -/
def legacySubtotalVal (o : Order) (r : ℚ) (excl : Bool) : ℚ :=
  rounded (legacySubtotalSum o r excl)

/-- Closed form of `getShippingTotal` on a legacy order. -/
def legacyShippingVal (o : Order) : ℚ :=
  o.shipping_methods.foldl (fun acc sm =>
    acc + (if o.discounts.any (fun d => d.rule_type.isFreeShipping) then 0 else sm.price)) 0

/-- Closed form of `getDiscountTotal` on a legacy order. -/
def legacyDiscountVal (o : Order) (r : ℚ) : ℚ :=
  let s := legacySubtotalVal o r true
  let t := jsRound (getLineItemAdjustmentsTotal (.order o))
  if s < 0 then rounded (max s t) else rounded (min s t)

/-- Closed form of `getGiftCardTotal` on a legacy order; depends only
on the gift-card collaborator. -/
def legacyGiftCardVal
    (gcf : ℚ → Region → List GiftCard → List GiftCardTransaction → GiftCardTotal)
    (o : Order) (r : ℚ) : GiftCardTotal :=
  gcf (legacySubtotalVal o r false - legacyDiscountVal o r)
    o.region o.gift_cards o.gift_card_transactions

/-- Closed form of `getTaxTotal` on a legacy order; depends only on
the gift-card collaborator. -/
def legacyTaxTotalFun
    (gcf : ℚ → Region → List GiftCard → List GiftCardTransaction → GiftCardTotal)
    (o : Order) (r : ℚ) : Except Err (Option ℚ) :=
  if !(o.items.all (fun i => i.tax_lines.isSome)) then
    .error (.unexpectedState "Order tax calculations must have tax lines joined on line items")
  else
    .ok (some (rounded
      ((legacySubtotalVal o r false - legacyDiscountVal o r -
          (legacyGiftCardVal gcf o r).total + legacyShippingVal o) * (r / 100))))

/-- The allocation amount as the specification words it: the sum of
the item's adjustments matching the first non-free-shipping discount
(zero when the item disallows discounts) plus the sum of its custom
(null `discount_id`) adjustments. -/
def allocAmountSpec (data : CalculationContextData) (li : LineItem) : ℚ :=
  let d := data.discounts.find? (fun d => !d.rule_type.isFreeShipping)
  (if li.allow_discounts then
    ((li.adjustments.filter (fun a => match d with
      | some d' => a.discount_id == some d'.id
      | none => false)).map (fun a => a.amount)).sum
   else 0) +
  ((li.adjustments.filter (fun a => a.discount_id == none)).map (fun a => a.amount)).sum

/-- The allocation-map pair created for a fresh item id by the
`getAllocationMap` loop. -/
def allocEntry (ld : LineDiscountAmount) : String × LineAllocation :=
  (ld.item.id,
    { discount := some
        { amount := ld.amount + ld.customAdjustmentsAmount
          unit_amount := jsRound ((ld.amount + ld.customAdjustmentsAmount) / (ld.item.quantity : ℚ)) } })

/-- The discount-adjusted line subtotal of `getLineItemRefund` for an
item that does not include tax in its price. -/
def refundLineSubtotal (o : Order) (li : LineItem) : ℚ :=
  li.unit_price * (li.quantity : ℚ) -
    (((allocLookup (getAllocationMap (CartOrOrder.order o).toData {}) li.id).bind
        (fun a => a.discount)).map (fun d => d.unit_amount)).getD 0 * (li.quantity : ℚ)

/-! ### Concrete instances

Concrete environments, carts and orders used as witnesses and
counterexamples. -/

/-- A deterministic environment: flag off, the provider returns no tax
lines, the strategy sums the given tax-line rates, gift cards
contribute nothing. -/
def env0 : Env :=
  { taxInclusiveEnabled := false
    getTaxLines := fun _ _ => []
    calculate := fun _ tls _ =>
      (tls.map (fun l => match l with | .li l' => l'.rate | .sm l' => l'.rate)).sum
    getGiftCardTotals := fun _ _ _ _ => { total := 0, tax_total := 0 } }

/-- A default region: automatic taxes on, gift cards not taxable. -/
def regD : Region := { automatic_taxes := true, gift_cards_taxable := false }

/-- A line item: price 1000, quantity 1, a 100 discount adjustment. -/
def itemC2 : LineItem :=
  { id := "i1", unit_price := 1000, quantity := 1, allow_discounts := true,
    includes_tax := false, is_return := false, tax_lines := some [],
    adjustments := [{ discount_id := some "d1", amount := 100 }], variant_id := some "v1" }

/-- A legacy order (`tax_rate` 25): subtotal 1000, discount 100,
shipping 50, no gift cards. -/
def oC2 : Order :=
  { items := [itemC2], discounts := [{ id := "d1", rule_type := .percentage }],
    shipping_methods := [{ id := "sm1", price := 50, includes_tax := false, tax_lines := [] }],
    region := regD, gift_cards := [], gift_card_transactions := [],
    shipping_address := none, customer := none, tax_rate := some 25, swaps := [], claims := [] }

/-- A line item carrying a negative custom adjustment of −500. -/
def itemC4 : LineItem :=
  { id := "i1", unit_price := 100, quantity := 1, allow_discounts := true,
    includes_tax := false, is_return := false, tax_lines := some [],
    adjustments := [{ discount_id := none, amount := -500 }], variant_id := some "v1" }

/-- A legacy order whose only item carries the −500 adjustment. -/
def oC4 : Order :=
  { items := [itemC4], discounts := [], shipping_methods := [],
    region := regD, gift_cards := [], gift_card_transactions := [],
    shipping_address := none, customer := none, tax_rate := some 25, swaps := [], claims := [] }

/-- A shipping method with price 100 and no tax lines. -/
def smC5 : ShippingMethod := { id := "sm5", price := 100, includes_tax := false, tax_lines := [] }

/-- A new-tax-system order with a free-shipping discount and a
shipping method without tax lines. -/
def oC5 : Order :=
  { items := [], discounts := [{ id := "dfs", rule_type := .free_shipping }],
    shipping_methods := [smC5], region := regD, gift_cards := [], gift_card_transactions := [],
    shipping_address := none, customer := none, tax_rate := none, swaps := [], claims := [] }

/-- A cart with a free-shipping discount and the same method. -/
def cartC5 : Cart :=
  { items := [], discounts := [{ id := "dfs", rule_type := .free_shipping }],
    shipping_methods := [smC5], region := regD, gift_cards := [], gift_card_transactions := [],
    shipping_address := none, customer := none, type := "default" }

/-- The shipping-method breakdown `getShippingMethodTotals` returns on
`cartC5`. -/
def smTotalsW : ShippingMethodTotals :=
  { price := 100, tax_total := 0, total := 0, subtotal := 0, original_total := 100,
    original_tax_total := 0, tax_lines := [] }

/-- Tax-inclusive flag on; strategy returns 0. -/
def envA : Env :=
  { taxInclusiveEnabled := true
    getTaxLines := fun _ _ => []
    calculate := fun _ _ _ => 0
    getGiftCardTotals := fun _ _ _ _ => { total := 0, tax_total := 0 } }

/-- Same as `envA` except the strategy returns 50. -/
def envB : Env := { envA with calculate := fun _ _ _ => 50 }

/-- Note: `envA` with the tax-inclusive flag off. -/
def envA0 : Env := { envA with taxInclusiveEnabled := false }

/-- Note: `envB` with the tax-inclusive flag off. -/
def envB0 : Env := { envB with taxInclusiveEnabled := false }

/-- A tax-inclusive shipping method that carries a tax line. -/
def smC6 : ShippingMethod :=
  { id := "sm6", price := 100, includes_tax := true,
    tax_lines := [{ shipping_method_id := "sm6", rate := 10 }] }

/-- A legacy order (`tax_rate` 100) whose only charge is `smC6`. -/
def oC6 : Order :=
  { items := [], discounts := [], shipping_methods := [smC6],
    region := regD, gift_cards := [], gift_card_transactions := [],
    shipping_address := none, customer := none, tax_rate := some 100, swaps := [], claims := [] }

/-- An item with an `undefined` tax-lines field. -/
def itemA : LineItem :=
  { id := "a", unit_price := 100, quantity := 1, allow_discounts := true,
    includes_tax := false, is_return := false, tax_lines := none,
    adjustments := [], variant_id := some "va" }

/-- An item whose id does not occur on `oC7`. -/
def itemB : LineItem :=
  { id := "b", unit_price := 100, quantity := 1, allow_discounts := true,
    includes_tax := false, is_return := false, tax_lines := some [],
    adjustments := [], variant_id := some "vb" }

/-- A new-tax-system order containing only `itemA`. -/
def oC7 : Order :=
  { items := [itemA], discounts := [], shipping_methods := [],
    region := regD, gift_cards := [], gift_card_transactions := [],
    shipping_address := none, customer := none, tax_rate := none, swaps := [], claims := [] }

/-- Note: `oC7` turned into a legacy order. -/
def oC10 : Order := { oC7 with tax_rate := some 25 }

/-- An item with one 1% tax line, price 150, quantity 1. -/
def itemC8 : LineItem :=
  { id := "i8", unit_price := 150, quantity := 1, allow_discounts := true,
    includes_tax := false, is_return := false,
    tax_lines := some [{ item_id := "i8", rate := 1 }],
    adjustments := [], variant_id := some "v8" }

/-- A new-tax-system order containing only `itemC8`. -/
def oC8 : Order :=
  { items := [itemC8], discounts := [], shipping_methods := [],
    region := regD, gift_cards := [], gift_card_transactions := [],
    shipping_address := none, customer := none, tax_rate := none, swaps := [], claims := [] }

/-- An item with quantity 3 and three adjustments: one matching
discount "d9", one custom, one matching another discount. -/
def itemC9 : LineItem :=
  { id := "i9", unit_price := 100, quantity := 3, allow_discounts := true,
    includes_tax := false, is_return := false, tax_lines := some [],
    adjustments := [{ discount_id := some "d9", amount := 50 },
                    { discount_id := none, amount := 7 },
                    { discount_id := some "other", amount := 1000 }], variant_id := some "v9" }

/-- A cart whose first non-free-shipping discount is "d9". -/
def cC9 : Cart :=
  { items := [itemC9],
    discounts := [{ id := "dfs", rule_type := .free_shipping },
                  { id := "d9", rule_type := .percentage }],
    shipping_methods := [], region := regD, gift_cards := [], gift_card_transactions := [],
    shipping_address := none, customer := none, type := "default" }

/-! ## Theorems -/

/-- Note: `Except.bind` on a success passes the value to the continuation. -/
theorem ok_bind {α β : Type} (a : α) (f : α → Except Err β) :
    (Except.ok a >>= f) = f a := rfl

/-- Note: `Except.bind` on an error short-circuits. -/
theorem error_bind {α β : Type} (err : Err) (f : α → Except Err β) :
    ((Except.error err : Except Err α) >>= f) = Except.error err := rfl

/-- Note: `pure` on `Except` is `Except.ok`. -/
theorem pure_eq_ok {α : Type} (a : α) : (pure a : Except Err α) = Except.ok a := rfl

/-- Note: `jsRound` computes the floor of `q + 1/2`. -/
theorem jsRound_eq_floor (q : ℚ) : jsRound q = ((⌊q + 1/2⌋ : ℤ) : ℚ) := by
  rw [jsRound, Rat.floor_def', ← Rat.floor_def]

/-- Inversion of a successful `Except` bind. -/
theorem bind_eq_ok {α β : Type} {x : Except Err α} {f : α → Except Err β} {b : β} :
    x >>= f = .ok b ↔ ∃ a, x = .ok a ∧ f a = .ok b := by
  cases x with
  | ok a => simp [ok_bind]
  | error err => simp [error_bind]

/-- Note: `jsRound` maps integers to themselves. -/
theorem jsRound_intCast (n : ℤ) : jsRound ((n : ℤ) : ℚ) = ((n : ℤ) : ℚ) := by
  rw [jsRound_eq_floor]
  norm_num

/-- Note: `jsRound` always returns an integer value. -/
theorem jsRound_isInt (q : ℚ) : ∃ n : ℤ, jsRound q = ((n : ℤ) : ℚ) := by
  rw [jsRound_eq_floor]
  exact ⟨⌊q + 1/2⌋, rfl⟩

/-- Evaluation: the subtotal of `oC2` is 1000. -/
theorem oC2_subtotal_eval : getSubtotal env0 (.order oC2) {} = .ok 1000 := by
  simp +decide [getSubtotal, subtotalStep, getLineItemTotals, lineItemTotalsSeed,
    lineItemTotalsLegacy, lineItemTotalsFinish, getCalculationContext, getAllocationMap,
    allocStep, getLineDiscounts, mkLineDiscount, mergedItems, allocLookup, CartOrOrder.toData,
    CartOrOrder.items, CartOrOrder.taxRate?, CartOrOrder.isOrderB, env0, regD, itemC2, oC2,
    Except.bind, Except.pure, bind, pure, rounded, jsRound_eq_floor, calculatePriceTaxAmount,
    DiscountRuleType.isFreeShipping]
  norm_num

/-- Evaluation: the discountable subtotal of `oC2` is also 1000. -/
theorem oC2_subtotalD_eval :
    getSubtotal env0 (.order oC2) { excludeNonDiscounts := true } = .ok 1000 := by
  simp +decide [getSubtotal, subtotalStep, getLineItemTotals, lineItemTotalsSeed,
    lineItemTotalsLegacy, lineItemTotalsFinish, getCalculationContext, getAllocationMap,
    allocStep, getLineDiscounts, mkLineDiscount, mergedItems, allocLookup, CartOrOrder.toData,
    CartOrOrder.items, CartOrOrder.taxRate?, CartOrOrder.isOrderB, env0, regD, itemC2, oC2,
    Except.bind, Except.pure, bind, pure, rounded, jsRound_eq_floor, calculatePriceTaxAmount,
    DiscountRuleType.isFreeShipping]
  norm_num

/-- Evaluation: the discount total of `oC2` is 100. -/
theorem oC2_discount_eval : getDiscountTotal env0 (.order oC2) = .ok 100 := by
  rw [getDiscountTotal, oC2_subtotalD_eval, ok_bind]
  simp +decide [getLineItemAdjustmentsTotal, CartOrOrder.items, oC2, itemC2,
    rounded, jsRound_eq_floor, pure_eq_ok]
  norm_num

/-- Evaluation: the gift-card total of `oC2` is zero. -/
theorem oC2_gift_eval :
    getGiftCardTotal env0 (.order oC2) {} = .ok { total := 0, tax_total := 0 } := by
  rw [getGiftCardTotal]
  simp only [oC2_subtotal_eval, oC2_discount_eval, ok_bind, pure_eq_ok, bind, Except.bind,
    pure, Except.pure]
  simp [env0]

/-- Evaluation: the shipping total of `oC2` is 50. -/
theorem oC2_shipping_eval : getShippingTotal env0 (.order oC2) = .ok 50 := by
  simp +decide [getShippingTotal, shippingTotalStep, getShippingMethodTotals,
    shippingMethodTotalsTax, shippingMethodTotalsApplyTaxLines, getCalculationContext,
    getAllocationMap, allocStep, getLineDiscounts, mkLineDiscount, mergedItems, allocLookup,
    CartOrOrder.toData, CartOrOrder.items, CartOrOrder.discounts, CartOrOrder.shipping_methods,
    CartOrOrder.taxRate?, CartOrOrder.isOrderB, env0, regD, itemC2, oC2, Except.bind,
    Except.pure, bind, pure, rounded, jsRound_eq_floor, DiscountRuleType.isFreeShipping]

/-- The legacy branch of `getTaxTotal`: on an order with a non-null
tax rate and tax lines joined, the result is the flat-rate formula on
the subtotal, discount, gift-card and shipping totals. -/
theorem taxTotal_legacy_aux (e : Env) (o : Order) (f : Bool) (r s d sh : ℚ)
    (g : GiftCardTotal)
    (hr : o.tax_rate = some r)
    (hj : o.items.all (fun i => i.tax_lines.isSome) = true)
    (hg : getGiftCardTotal e (.order o) {} = .ok g)
    (hs : getSubtotal e (.order o) {} = .ok s)
    (hsh : getShippingTotal e (.order o) = .ok sh)
    (hd : getDiscountTotal e (.order o) = .ok d) :
    getTaxTotal e (.order o) f = .ok (some (rounded ((s - d - g.total + sh) * (r / 100)))) := by
  simp [getTaxTotal, CartOrOrder.isCartB, hg, hj, hr, hs, hsh, hd, ok_bind, pure_eq_ok,
    bind, Except.bind, Except.pure, pure]

/-- Evaluation: the legacy tax total of `oC2` is 238. -/
theorem oC2_taxtotal_eval : getTaxTotal env0 (.order oC2) false = .ok (some 238) := by
  have h := taxTotal_legacy_aux env0 oC2 false 25 1000 100 50
    { total := 0, tax_total := 0 } rfl (by decide) oC2_gift_eval oC2_subtotal_eval
    oC2_shipping_eval oC2_discount_eval
  rw [h]
  norm_num [rounded, jsRound_eq_floor]

/-- C1: for every cart or order `x` and options `o`, `getTotal(x, o)`
equals `getSubtotal(x) + t + getShippingTotal(x) − getDiscountTotal(x)
− g`, where `t` is `getTaxTotal(x, o.force_taxes)` with a null result
treated as 0, and `g` is 0 when `o.exclude_gift_cards` and
`getGiftCardTotal(x).total` otherwise. -/
theorem getTotal_decomposition (e : Env) (x : CartOrOrder) (o : GetTotalsOptions)
    (s d sh : ℚ) (t : Option ℚ) (g : GiftCardTotal)
    (hs : getSubtotal e x {} = .ok s)
    (ht : getTaxTotal e x o.force_taxes = .ok t)
    (hd : getDiscountTotal e x = .ok d)
    (hg : getGiftCardTotal e x {} = .ok g)
    (hsh : getShippingTotal e x = .ok sh) :
    getTotal e x o =
      .ok (s + t.getD 0 + sh - d - (if o.exclude_gift_cards then 0 else g.total)) := by
  cases hoc : o.exclude_gift_cards <;>
    simp [getTotal, hs, ht, hd, hg, hsh, hoc, ok_bind, pure_eq_ok, bind, Except.bind,
      Except.pure, pure]

/-- Witness for C1: on the concrete legacy order `oC2`,
`getTotal = 1000 + 238 + 50 − 100 − 0 = 1188`. -/
theorem getTotal_decomposition_witness : getTotal env0 (.order oC2) {} = .ok 1188 := by
  have h := getTotal_decomposition env0 (.order oC2) {} 1000 100 50 (some 238)
    { total := 0, tax_total := 0 } oC2_subtotal_eval oC2_taxtotal_eval oC2_discount_eval
    oC2_gift_eval oC2_shipping_eval
  rw [h]
  norm_num

/-- C2: for every legacy order (non-null `tax_rate` `r`) whose items
have tax lines joined, `getTaxTotal` returns
`rounded((subtotal − discountTotal − giftCardTotal.total +
shippingTotal) · r/100)` directly, with no gift-card tax deduction
afterwards. -/
theorem getTaxTotal_legacy_formula (e : Env) (o : Order) (f : Bool) (r s d sh : ℚ)
    (g : GiftCardTotal)
    (hr : o.tax_rate = some r)
    (hj : o.items.all (fun i => i.tax_lines.isSome) = true)
    (hg : getGiftCardTotal e (.order o) {} = .ok g)
    (hs : getSubtotal e (.order o) {} = .ok s)
    (hsh : getShippingTotal e (.order o) = .ok sh)
    (hd : getDiscountTotal e (.order o) = .ok d) :
    getTaxTotal e (.order o) f = .ok (some (rounded ((s - d - g.total + sh) * (r / 100)))) :=
  taxTotal_legacy_aux e o f r s d sh g hr hj hg hs hsh hd

/-- Witness for C2: on `oC2` (subtotal 1000, discount 100, shipping
50, no gift cards, `tax_rate` 25) the tax total is
`round(950 · 0.25) = round(237.5) = 238`. -/
theorem getTaxTotal_legacy_formula_witness :
    getTaxTotal env0 (.order oC2) false = .ok (some 238) ∧ oC2.tax_rate = some 25 := by
  have h := getTaxTotal_legacy_formula env0 oC2 false 25 1000 100 50
    { total := 0, tax_total := 0 } rfl (by decide) oC2_gift_eval oC2_subtotal_eval
    oC2_shipping_eval oC2_discount_eval
  rw [h]
  constructor
  · norm_num [rounded, jsRound_eq_floor]
  · rfl

/-- C3 counterexample: the engine's rounding primitive sends −2.5 to
−2, not to −3 as round-half-away-from-zero would. -/
theorem rounded_neg_half_counterexample :
    rounded (-5/2) = -2 ∧ rounded (-5/2) ≠ -3 := by
  rw [rounded, jsRound_eq_floor]
  norm_num

/-- C3 amended: `rounded` is `Math.round`, i.e. `⌊q + 1/2⌋`: it
rounds to the nearest integer with halves toward positive infinity
(agreeing with round-half-away-from-zero on nonnegative inputs only). -/
theorem rounded_half_toward_posinf (q : ℚ) :
    rounded q = ((⌊q + 1/2⌋ : ℤ) : ℚ) ∧ q - 1/2 < rounded q ∧ rounded q ≤ q + 1/2 := by
  rw [rounded, jsRound_eq_floor]
  refine ⟨rfl, ?_, ?_⟩
  · have h := Int.lt_floor_add_one (q + 1/2)
    push_cast at h ⊢
    linarith
  · have h := Int.floor_le (q + 1/2)
    push_cast at h ⊢
    linarith

/-- Any successful `getSubtotal` result is an integer (it ends in
`rounded`). -/
theorem getSubtotal_isInt {e : Env} {x : CartOrOrder} {opts : SubtotalOptions} {s : ℚ}
    (h : getSubtotal e x opts = .ok s) : ∃ n : ℤ, s = ((n : ℤ) : ℚ) := by
  rw [getSubtotal] at h
  obtain ⟨a, -, h2⟩ := bind_eq_ok.mp h
  rw [pure_eq_ok, Except.ok.injEq] at h2
  obtain ⟨n, hn⟩ := jsRound_isInt a
  exact ⟨n, by rw [← h2, rounded, hn]⟩

/-- Clamp facts on ℤ, negative-subtotal side. -/
theorem clampIntNeg (m k : ℤ) (hm : m < 0) (hk : k ≤ 0) :
    |max m k| ≤ |m| ∧
      (max m k = 0 ∨ (0 < max m k ∧ (0 : ℤ) < m) ∨ (max m k < 0 ∧ m < 0)) := by
  constructor
  · rw [abs_of_nonpos (max_le hm.le hk), abs_of_neg hm]
    have h := le_max_left m k
    linarith
  · rcases (max_le hm.le hk).lt_or_eq with h | h
    · exact Or.inr (Or.inr ⟨h, hm⟩)
    · exact Or.inl h

/-- Clamp facts on ℤ, nonnegative-subtotal side. -/
theorem clampIntPos (m k : ℤ) (hm : 0 ≤ m) (hk : 0 ≤ k) :
    |min m k| ≤ |m| ∧
      (min m k = 0 ∨ (0 < min m k ∧ (0 : ℤ) < m) ∨ (min m k < 0 ∧ m < 0)) := by
  constructor
  · rw [abs_of_nonneg (le_min hm hk), abs_of_nonneg hm]
    exact min_le_left m k
  · rcases (le_min hm hk).lt_or_eq with h | h
    · exact Or.inr (Or.inl ⟨h, lt_of_lt_of_le h (min_le_left m k)⟩)
    · exact Or.inl h.symm

/-- C4 amended: when the rounded sum of the line-item adjustment
amounts is zero or shares the sign of the discountable subtotal,
`getDiscountTotal` never exceeds that subtotal in magnitude and is
zero or shares its sign.  (Without the sign condition the claim fails:
see the counterexample.) -/
theorem getDiscountTotal_clamp (e : Env) (x : CartOrOrder) (s dt : ℚ)
    (hs : getSubtotal e x { excludeNonDiscounts := true } = .ok s)
    (hd : getDiscountTotal e x = .ok dt)
    (hsign : (0 ≤ s → 0 ≤ jsRound (getLineItemAdjustmentsTotal x)) ∧
             (s < 0 → jsRound (getLineItemAdjustmentsTotal x) ≤ 0)) :
    |dt| ≤ |s| ∧ (dt = 0 ∨ (0 < dt ∧ 0 < s) ∨ (dt < 0 ∧ s < 0)) := by
  obtain ⟨m, rfl⟩ := getSubtotal_isInt hs
  obtain ⟨k, hk⟩ := jsRound_isInt (getLineItemAdjustmentsTotal x)
  rw [getDiscountTotal] at hd
  rw [hs] at hd
  simp only [ok_bind] at hd
  rw [hk] at hd hsign
  rcases lt_or_le ((m : ℤ) : ℚ) 0 with hm | hm
  · rw [if_pos hm] at hd
    simp only [pure_eq_ok, Except.ok.injEq] at hd
    have hdt : dt = ((max m k : ℤ) : ℚ) := by
      rw [← hd, ← Int.cast_max, rounded, jsRound_intCast]
    subst hdt
    have hm' : m < 0 := by exact_mod_cast hm
    have hk' : k ≤ 0 := by
      have := hsign.2 hm
      exact_mod_cast this
    exact_mod_cast clampIntNeg m k hm' hk'
  · rw [if_neg (not_lt.mpr hm)] at hd
    simp only [pure_eq_ok, Except.ok.injEq] at hd
    have hdt : dt = ((min m k : ℤ) : ℚ) := by
      rw [← hd, ← Int.cast_min, rounded, jsRound_intCast]
    subst hdt
    have hm' : 0 ≤ m := by exact_mod_cast hm
    have hk' : 0 ≤ k := by
      have := hsign.1 hm
      exact_mod_cast this
    exact_mod_cast clampIntPos m k hm' hk'

/-- Evaluation: the discountable subtotal of `oC4` is 100. -/
theorem oC4_subtotalD_eval :
    getSubtotal env0 (.order oC4) { excludeNonDiscounts := true } = .ok 100 := by
  simp +decide [getSubtotal, subtotalStep, getLineItemTotals, lineItemTotalsSeed,
    lineItemTotalsLegacy, lineItemTotalsFinish, getCalculationContext, getAllocationMap,
    allocStep, getLineDiscounts, mkLineDiscount, mergedItems, allocLookup, CartOrOrder.toData,
    CartOrOrder.items, CartOrOrder.taxRate?, CartOrOrder.isOrderB, env0, regD, itemC4, oC4,
    Except.bind, Except.pure, bind, pure, rounded, jsRound_eq_floor, calculatePriceTaxAmount,
    DiscountRuleType.isFreeShipping]
  norm_num

/-- Evaluation: the discount total of `oC4` is −500, the raw
(negative) adjustment sum. -/
theorem oC4_discount_eval : getDiscountTotal env0 (.order oC4) = .ok (-500) := by
  rw [getDiscountTotal, oC4_subtotalD_eval, ok_bind]
  simp +decide [getLineItemAdjustmentsTotal, CartOrOrder.items, oC4, itemC4,
    rounded, jsRound_eq_floor, pure_eq_ok]
  norm_num

/-- C4 counterexample: on `oC4` (discountable subtotal 100, adjustment
sum −500) the discount total is −500, which exceeds the subtotal in
magnitude and has the opposite sign. -/
theorem getDiscountTotal_clamp_counterexample :
    getSubtotal env0 (.order oC4) { excludeNonDiscounts := true } = .ok 100 ∧
    getDiscountTotal env0 (.order oC4) = .ok (-500) ∧
    ¬(|(-500 : ℚ)| ≤ |(100 : ℚ)| ∧
      ((-500 : ℚ) = 0 ∨ (0 < (-500 : ℚ) ∧ (0 : ℚ) < 100) ∨
        ((-500 : ℚ) < 0 ∧ (100 : ℚ) < 0))) :=
  ⟨oC4_subtotalD_eval, oC4_discount_eval, by norm_num⟩

/-- Evaluation: the rounded adjustment total of `oC2` is 100. -/
theorem oC2_adjT_eval : jsRound (getLineItemAdjustmentsTotal (.order oC2)) = 100 := by
  simp [getLineItemAdjustmentsTotal, CartOrOrder.items, oC2, itemC2, jsRound_eq_floor]
  norm_num

/-- Witness for C4 (amended) at `oC2`: discount total 100 against
discountable subtotal 1000. -/
theorem getDiscountTotal_clamp_witness :
    |(100 : ℚ)| ≤ |(1000 : ℚ)| ∧
      ((100 : ℚ) = 0 ∨ (0 < (100 : ℚ) ∧ (0 : ℚ) < 1000) ∨
        ((100 : ℚ) < 0 ∧ (1000 : ℚ) < 0)) :=
  getDiscountTotal_clamp env0 (.order oC2) 1000 100 oC2_subtotalD_eval oC2_discount_eval
    ⟨fun _ => by rw [oC2_adjT_eval]; norm_num, fun h => absurd h (by norm_num)⟩

/-- C5 amended: whenever a cart or order carries a FREE_SHIPPING
discount and `getShippingMethodTotals` succeeds, the returned
breakdown has `total = subtotal = tax_total = 0`.  (The call can
instead fail on an order whose method tax lines cannot be resolved:
see the counterexample.) -/
theorem getShippingMethodTotals_free_shipping (e : Env) (sm : ShippingMethod)
    (x : CartOrOrder) (opts : GetShippingMethodTotalsOptions) (t : ShippingMethodTotals)
    (hfs : x.discounts.any (fun d => d.rule_type.isFreeShipping) = true)
    (h : getShippingMethodTotals e sm x opts = .ok t) :
    t.total = 0 ∧ t.subtotal = 0 ∧ t.tax_total = 0 := by
  simp only [getShippingMethodTotals, hfs, if_true] at h
  split at h
  · obtain ⟨t1v, -, h2⟩ := bind_eq_ok.mp h
    simp only [pure_eq_ok, ok_bind, Except.ok.injEq] at h2
    rw [← h2]
    exact ⟨rfl, rfl, rfl⟩
  · simp only [pure_eq_ok, ok_bind, Except.ok.injEq] at h
    rw [← h]
    exact ⟨rfl, rfl, rfl⟩

/-- C5 counterexample: on the order `oC5`, which has a FREE_SHIPPING
discount but a shipping method with no resolvable tax lines,
`getShippingMethodTotals` does not return a breakdown at all — it
fails with UnexpectedState. -/
theorem getShippingMethodTotals_free_shipping_counterexample :
    oC5.discounts.any (fun d => d.rule_type.isFreeShipping) = true ∧
    getShippingMethodTotals env0 smC5 (.order oC5) { include_tax := true } =
      .error (.unexpectedState
        "Tax Lines must be joined on shipping method to calculate taxes") := by
  constructor
  · decide
  · simp +decide [getShippingMethodTotals, shippingMethodTotalsTax,
      shippingMethodTotalsApplyTaxLines, getCalculationContext, getAllocationMap, allocStep,
      getLineDiscounts, mkLineDiscount, mergedItems, allocLookup, CartOrOrder.toData, CartOrOrder.items,
      CartOrOrder.discounts, CartOrOrder.shipping_methods, CartOrOrder.taxRate?,
      CartOrOrder.isOrderB, env0, regD, smC5, oC5, Except.bind, Except.pure, bind, pure,
      DiscountRuleType.isFreeShipping]

/-- Evaluation: on the cart `cartC5` the same method yields the
breakdown `smTotalsW`, whose user-facing totals are zeroed. -/
theorem cartC5_shipping_eval :
    getShippingMethodTotals env0 smC5 (.cart cartC5) { include_tax := true } =
      .ok smTotalsW := by
  simp +decide [getShippingMethodTotals, shippingMethodTotalsTax,
    shippingMethodTotalsApplyTaxLines, getCalculationContext, getAllocationMap, allocStep,
    getLineDiscounts, mkLineDiscount, mergedItems, allocLookup, CartOrOrder.toData, CartOrOrder.items,
    CartOrOrder.discounts, CartOrOrder.shipping_methods, CartOrOrder.taxRate?,
    CartOrOrder.isOrderB, CartOrOrder.isCartB, env0, regD, smC5, cartC5, smTotalsW,
    Except.bind, Except.pure, bind, pure, DiscountRuleType.isFreeShipping]

/-- Witness for C5 (amended) at `cartC5`. -/
theorem getShippingMethodTotals_free_shipping_witness :
    smTotalsW.total = 0 ∧ smTotalsW.subtotal = 0 ∧ smTotalsW.tax_total = 0 :=
  getShippingMethodTotals_free_shipping env0 smC5 (.cart cartC5) { include_tax := true }
    smTotalsW (by decide) cartC5_shipping_eval

/-- Note: `throw` on `Except` is `Except.error`. -/
theorem throw_eq_error {α : Type} (err : Err) : (throw err : Except Err α) = .error err := rfl

/-- When every requested id is known, the validating loop body agrees
with the plain refund computation. -/
theorem mapM_refundStep_eq (e : Env) (o : Order) (l : List LineItem)
    (h : ∀ li ∈ l, li.id ∈ refundableIds o) :
    l.mapM (refundStep e o) = l.mapM (getLineItemRefund e o) := by
  induction l with
  | nil => rfl
  | cons hd tl ih =>
    rw [List.mapM_cons, List.mapM_cons]
    have hhd : refundStep e o hd = getLineItemRefund e o hd := by
      rw [refundStep, if_pos (h hd (List.mem_cons_self hd tl))]
    rw [hhd, ih (fun y hy => h y (List.mem_cons_of_mem hd hy))]

/-- A requested item with an unknown id fails the whole refund loop
with InvalidData, provided the preceding known-id items' refunds all
compute. -/
theorem getRefundTotal_error_aux (e : Env) (o : Order) (li : LineItem) (suf : List LineItem)
    (hnot : li.id ∉ refundableIds o) :
    ∀ pre : List LineItem,
      (∀ y ∈ pre, y.id ∈ refundableIds o → ∃ v, getLineItemRefund e o y = .ok v) →
      getRefundTotal e o (pre ++ li :: suf) =
        .error (.invalidData "Line item does not exist on order") := by
  intro pre
  induction pre with
  | nil =>
    intro _
    rw [List.nil_append, getRefundTotal, List.mapM_cons, refundStep, if_neg hnot]
    simp only [throw_eq_error, error_bind]
  | cons y pre' ih =>
    intro hpre
    rw [List.cons_append, getRefundTotal, List.mapM_cons]
    by_cases hy : y.id ∈ refundableIds o
    · obtain ⟨v, hv⟩ := hpre y (List.mem_cons_self y pre') hy
      rw [refundStep, if_pos hy, hv, ok_bind]
      have hrest := ih (fun z hz h => hpre z (List.mem_cons_of_mem y hz) h)
      rw [getRefundTotal] at hrest
      cases hmm : (pre' ++ li :: suf).mapM (refundStep e o) with
      | error err =>
        rw [hmm, error_bind] at hrest
        simp only [error_bind]
        exact hrest
      | ok rs =>
        rw [hmm, ok_bind, pure_eq_ok] at hrest
        exact Except.noConfusion hrest
    · rw [refundStep, if_neg hy]
      simp only [throw_eq_error, error_bind]

/-- C7 amended: `getRefundTotal` fails whenever some requested item's
id is not among `order.items` plus all swap and claim
`additional_items` — with InvalidData provided every preceding
known-id item's refund computes (otherwise that earlier refund's own
error propagates instead); when every requested id is present it
returns the rounded sum of `getLineItemRefund` over the requested
items, individual refund errors propagating. -/
theorem getRefundTotal_validation (e : Env) (o : Order) (lineItems : List LineItem) :
    ((∀ li ∈ lineItems, li.id ∈ refundableIds o) →
      getRefundTotal e o lineItems =
        (lineItems.mapM (getLineItemRefund e o)).map (fun rs => rounded rs.sum)) ∧
    (∀ pre li suf, lineItems = pre ++ li :: suf → li.id ∉ refundableIds o →
      (∀ y ∈ pre, y.id ∈ refundableIds o → ∃ v, getLineItemRefund e o y = .ok v) →
      getRefundTotal e o lineItems =
        .error (.invalidData "Line item does not exist on order")) := by
  constructor
  · intro h
    rw [getRefundTotal, mapM_refundStep_eq e o lineItems h]
    cases hm : lineItems.mapM (getLineItemRefund e o) with
    | error err => rfl
    | ok rs => rfl
  · intro pre li suf heq hnot hpre
    rw [heq]
    exact getRefundTotal_error_aux e o li suf hnot pre hpre

/-- Witness for C7 (amended): on `oC2` a known item id yields the
rounded refund sum; an unknown id fails with InvalidData. -/
theorem getRefundTotal_validation_witness :
    getRefundTotal env0 oC2 [itemC2] =
      (([itemC2].mapM (getLineItemRefund env0 oC2)).map (fun rs => rounded rs.sum)) ∧
    getRefundTotal env0 oC2 [itemB] =
      .error (.invalidData "Line item does not exist on order") :=
  ⟨(getRefundTotal_validation env0 oC2 [itemC2]).1 (by decide),
   (getRefundTotal_validation env0 oC2 [itemB]).2 [] itemB [] rfl (by decide)
     (fun y hy => absurd hy (List.not_mem_nil y))⟩

/-- Evaluation: requesting `[itemA, itemB]` on `oC7` fails with the
UnexpectedState error of `itemA`'s refund, although `itemB`'s id is
unknown. -/
theorem oC7_refund_eval :
    getRefundTotal env0 oC7 [itemA, itemB] =
      .error (.unexpectedState "Tax calculation did not receive tax_lines") := by
  simp +decide [getRefundTotal, refundStep, refundableIds, getLineItemRefund,
    getAllocationMap, allocStep, getLineDiscounts, mkLineDiscount, mergedItems, allocLookup,
    List.mapM, List.mapM.loop, CartOrOrder.toData, env0, oC7, itemA, itemB,
    Except.bind, Except.pure, bind, pure, throw_eq_error, DiscountRuleType.isFreeShipping]

/-- C7 counterexample: `itemB`'s id is unknown on `oC7`, yet
`getRefundTotal` does not fail with InvalidData — `itemA`'s missing
tax lines fail first with UnexpectedState. -/
theorem getRefundTotal_validation_counterexample :
    itemB.id ∉ refundableIds oC7 ∧
    getRefundTotal env0 oC7 [itemA, itemB] =
      .error (.unexpectedState "Tax calculation did not receive tax_lines") ∧
    getRefundTotal env0 oC7 [itemA, itemB] ≠
      .error (.invalidData "Line item does not exist on order") := by
  refine ⟨by decide, oC7_refund_eval, ?_⟩
  rw [oC7_refund_eval]
  simp

/-- C8 amended: on a new-tax-system order, for an item with tax lines
and a tax-exclusive price, `getLineItemRefund` returns
`S + Σ_l round(S·rate_l/100)` — each tax line's tax rounded
separately and then summed, not `S·(Σ rates)/100` exactly — where `S`
is the discount-adjusted line subtotal. -/
theorem getLineItemRefund_tax_lines (e : Env) (o : Order) (li : LineItem)
    (tls : List LineItemTaxLine)
    (hr : o.tax_rate = none) (htl : li.tax_lines = some tls) (hit : li.includes_tax = false) :
    getLineItemRefund e o li =
      .ok (refundLineSubtotal o li +
        (tls.map (fun l => rounded (refundLineSubtotal o li * (l.rate / 100)))).sum) := by
  simp only [getLineItemRefund, hr, htl, hit, Bool.and_false, Bool.not_false, if_true,
    refundLineSubtotal, sub_zero, pure_eq_ok]

/-- Evaluation: `getLineItemRefund` on `oC8`/`itemC8` yields
`150 + round(150·1/100) = 150 + round(1.5) = 152`. -/
theorem oC8_refund_eval : getLineItemRefund env0 oC8 itemC8 = .ok 152 := by
  simp +decide [getLineItemRefund, getAllocationMap, allocStep, getLineDiscounts, mkLineDiscount, mergedItems,
    allocLookup, CartOrOrder.toData, env0, regD, oC8, itemC8, Except.bind, Except.pure, bind,
    pure, rounded, jsRound_eq_floor, calculatePriceTaxAmount, DiscountRuleType.isFreeShipping]
  norm_num

/-- Evaluation: the discount-adjusted subtotal of `itemC8` is 150. -/
theorem oC8_refundSub_eval : refundLineSubtotal oC8 itemC8 = 150 := by
  simp +decide [refundLineSubtotal, getAllocationMap, allocStep, getLineDiscounts,
    mkLineDiscount, mergedItems, allocLookup, CartOrOrder.toData, oC8, itemC8,
    jsRound_eq_floor, DiscountRuleType.isFreeShipping]
  norm_num

/-- C8 counterexample: the code returns 152 on `itemC8` (per-line
rounding), while the claimed formula `S + S·(Σ rates)/100` gives
`150 + 150·1/100 = 151.5`. -/
theorem getLineItemRefund_tax_lines_counterexample :
    getLineItemRefund env0 oC8 itemC8 = .ok 152 ∧
    refundLineSubtotal oC8 itemC8 = 150 ∧
    (150 : ℚ) + 150 * ((1 : ℚ) / 100) ≠ 152 :=
  ⟨oC8_refund_eval, oC8_refundSub_eval, by norm_num⟩

/-- Witness for C8 (amended) at `itemC8`: the formula evaluates to
152. -/
theorem getLineItemRefund_tax_lines_witness :
    getLineItemRefund env0 oC8 itemC8 = .ok 152 ∧ itemC8.includes_tax = false := by
  have h := getLineItemRefund_tax_lines env0 oC8 itemC8 [{ item_id := "i8", rate := 1 }]
    rfl rfl rfl
  rw [h, oC8_refundSub_eval]
  refine ⟨?_, rfl⟩
  norm_num [rounded, jsRound_eq_floor]

/-- A fallible fold whose steps all succeed succeeds, and computes the
corresponding pure fold whenever `P` pins the step values down. -/
theorem foldlM_ok_val {α : Type} (step : ℚ → α → Except Err ℚ) (g : ℚ → α → ℚ)
    (P : Prop) (l : List α)
    (h : ∀ b a, a ∈ l → ∃ b', step b a = .ok b' ∧ (P → b' = g b a)) :
    ∀ b, ∃ v, l.foldlM step b = .ok v ∧ (P → v = l.foldl g b) := by
  induction l with
  | nil => intro b; exact ⟨b, rfl, fun _ => rfl⟩
  | cons hd tl ih =>
    intro b
    obtain ⟨b', hb, hbv⟩ := h b hd (List.mem_cons_self hd tl)
    obtain ⟨v, hv, hvv⟩ := ih (fun c a ha => h c a (List.mem_cons_of_mem hd ha)) b'
    refine ⟨v, ?_, fun hp => ?_⟩
    · rw [List.foldlM_cons, hb, ok_bind, hv]
    · rw [List.foldl_cons, hvv hp, hbv hp]

/-- The legacy branch of the per-line-item tax block computes the
legacy subtotal when the tax-inclusive flag is off. -/
theorem lineItemTotalsLegacy_subtotal_flag_off (e : Env) (li : LineItem) (r : ℚ)
    (t : LineItemTotals) (hf : e.taxInclusiveEnabled = false) :
    (lineItemTotalsLegacy e li r t).subtotal = legacyItemSubtotal r li := by
  simp only [lineItemTotalsLegacy, legacyItemSubtotal, hf, Bool.false_and]

/-- Note: `lineItemTotalsFinish` on a legacy-branch breakdown succeeds, and
keeps the legacy subtotal when the tax-inclusive flag is off. -/
theorem finish_of_legacy (e : Env) (li : LineItem) (r : ℚ) (ctx : TaxCalculationContext)
    (opt : LineItemTotalsOptions) :
    ∃ t', lineItemTotalsFinish e li ctx
        (lineItemTotalsLegacy e li r (lineItemTotalsSeed e li ctx opt)) = .ok t' ∧
      (e.taxInclusiveEnabled = false → t'.subtotal = legacyItemSubtotal r li) := by
  have htl : (lineItemTotalsLegacy e li r (lineItemTotalsSeed e li ctx opt)).tax_lines =
      some ((li.tax_lines.getD []).map AnyTaxLine.li) := rfl
  simp only [lineItemTotalsFinish, htl]
  by_cases hl : 0 < ((li.tax_lines.getD []).map AnyTaxLine.li).length
  · rw [if_pos hl]
    refine ⟨_, rfl, fun hf => ?_⟩
    simp only [hf, Bool.false_and, Bool.false_eq_true, if_false]
    exact lineItemTotalsLegacy_subtotal_flag_off e li r _ hf
  · rw [if_neg hl]
    exact ⟨_, rfl, fun hf => lineItemTotalsLegacy_subtotal_flag_off e li r _ hf⟩

/-- Note: `getLineItemTotals` on a legacy order always succeeds, and its
subtotal is the legacy item subtotal when the tax-inclusive flag is
off. -/
theorem getLineItemTotals_legacy (e : Env) (o : Order) (li : LineItem) (r : ℚ) (b : Bool)
    (hr : o.tax_rate = some r) :
    ∃ t, getLineItemTotals e li (.order o) { include_tax := true, exclude_gift_cards := b } =
        .ok t ∧
      (e.taxInclusiveEnabled = false → t.subtotal = legacyItemSubtotal r li) := by
  simp only [getLineItemTotals, CartOrOrder.taxRate?, hr, pure_eq_ok, ok_bind]
  exact finish_of_legacy e li r _ _

/-- Note: `getSubtotal` on a legacy order always succeeds, and computes the
legacy subtotal when the tax-inclusive flag is off. -/
theorem getSubtotal_legacy (e : Env) (o : Order) (opts : SubtotalOptions) (r : ℚ)
    (hr : o.tax_rate = some r) :
    ∃ s, getSubtotal e (.order o) opts = .ok s ∧
      (e.taxInclusiveEnabled = false → s = legacySubtotalVal o r opts.excludeNonDiscounts) := by
  have hstep : ∀ (c : ℚ) (a : LineItem), a ∈ o.items →
      ∃ c', subtotalStep e (.order o) opts c a = .ok c' ∧
        (e.taxInclusiveEnabled = false →
          c' = if opts.excludeNonDiscounts && !a.allow_discounts then c
               else c + legacyItemSubtotal r a) := by
    intro c a _
    rw [subtotalStep]
    by_cases hc : (opts.excludeNonDiscounts && !a.allow_discounts) = true
    · rw [if_pos hc]
      exact ⟨c, rfl, fun _ => by rw [if_pos hc]⟩
    · rw [if_neg hc]
      obtain ⟨t, ht, hsub⟩ := getLineItemTotals_legacy e o a r true hr
      refine ⟨c + t.subtotal, ?_, fun hf => ?_⟩
      · rw [ht, ok_bind, pure_eq_ok]
      · rw [if_neg hc, hsub hf]
  obtain ⟨v, hv, hvv⟩ :=
    foldlM_ok_val (subtotalStep e (.order o) opts)
      (fun c li => if opts.excludeNonDiscounts && !li.allow_discounts then c
                   else c + legacyItemSubtotal r li)
      (e.taxInclusiveEnabled = false) o.items hstep 0
  refine ⟨rounded v, ?_, fun hf => ?_⟩
  · rw [getSubtotal]
    rw [show (CartOrOrder.order o).items = o.items from rfl, hv, ok_bind, pure_eq_ok]
  · rw [hvv hf]
    rfl

/-- Note: `getDiscountTotal` on a legacy order always succeeds, and computes
the legacy discount total when the tax-inclusive flag is off. -/
theorem getDiscountTotal_legacy (e : Env) (o : Order) (r : ℚ) (hr : o.tax_rate = some r) :
    ∃ d, getDiscountTotal e (.order o) = .ok d ∧
      (e.taxInclusiveEnabled = false → d = legacyDiscountVal o r) := by
  obtain ⟨s, hs, hsv⟩ := getSubtotal_legacy e o { excludeNonDiscounts := true } r hr
  rw [getDiscountTotal, hs]
  simp only [ok_bind]
  refine ⟨if s < 0 then rounded (max s (jsRound (getLineItemAdjustmentsTotal (.order o))))
          else rounded (min s (jsRound (getLineItemAdjustmentsTotal (.order o)))),
    ?_, fun hf => ?_⟩
  · by_cases hc : s < 0
    · rw [if_pos hc, if_pos hc, pure_eq_ok]
    · rw [if_neg hc, if_neg hc, pure_eq_ok]
  · rw [hsv hf]
    rfl

/-- Note: `getGiftCardTotal` on a legacy order always succeeds, and its
value depends only on the gift-card collaborator when the
tax-inclusive flag is off. -/
theorem getGiftCardTotal_legacy (e : Env) (o : Order) (r : ℚ) (hr : o.tax_rate = some r) :
    ∃ g, getGiftCardTotal e (.order o) {} = .ok g ∧
      (e.taxInclusiveEnabled = false → g = legacyGiftCardVal e.getGiftCardTotals o r) := by
  obtain ⟨s, hs, hsv⟩ := getSubtotal_legacy e o {} r hr
  obtain ⟨d, hd, hdv⟩ := getDiscountTotal_legacy e o r hr
  rw [getGiftCardTotal]
  simp only [hs, hd, ok_bind, pure_eq_ok]
  refine ⟨e.getGiftCardTotals (s - d) (CartOrOrder.order o).region
      (CartOrOrder.order o).gift_cards (CartOrOrder.order o).gift_card_transactions,
    rfl, fun hf => ?_⟩
  rw [hsv hf, hdv hf]
  rfl

/-- The legacy flat-rate branch of the per-shipping-method tax block
always succeeds. -/
theorem shippingMethodTotalsTax_legacy_eval (e : Env) (sm : ShippingMethod) (o : Order)
    (r : ℚ) (ctx : TaxCalculationContext) (t : ShippingMethodTotals)
    (hr : o.tax_rate = some r) :
    shippingMethodTotalsTax e sm (.order o) ctx t =
      .ok { t with original_tax_total := jsRound (t.price * (r / 100))
                   tax_total := jsRound (t.price * (r / 100)) } := by
  simp only [shippingMethodTotalsTax, CartOrOrder.taxRate?, hr]

/-- The tax-line application step never changes the subtotal when the
tax-inclusive flag is off. -/
theorem applyTaxLines_subtotal_flag_off (e : Env) (sm : ShippingMethod)
    (ctx : TaxCalculationContext) (t : ShippingMethodTotals)
    (hf : e.taxInclusiveEnabled = false) :
    (shippingMethodTotalsApplyTaxLines e sm ctx t).subtotal = t.subtotal := by
  simp only [shippingMethodTotalsApplyTaxLines, hf, Bool.false_and, Bool.false_eq_true,
    if_false]
  split <;> rfl

/-- Note: `getShippingMethodTotals` with `include_tax` on a legacy order
always succeeds, and its subtotal is the method price (zero under free
shipping) when the tax-inclusive flag is off. -/
theorem getShippingMethodTotals_legacy (e : Env) (sm : ShippingMethod) (o : Order) (r : ℚ)
    (hr : o.tax_rate = some r) :
    ∃ t, getShippingMethodTotals e sm (.order o) { include_tax := true } = .ok t ∧
      (e.taxInclusiveEnabled = false →
        t.subtotal = if o.discounts.any (fun d => d.rule_type.isFreeShipping) then 0
                     else sm.price) := by
  simp only [getShippingMethodTotals, CartOrOrder.discounts]
  rw [shippingMethodTotalsTax_legacy_eval e sm o r _ _ hr]
  simp only [ok_bind, pure_eq_ok]
  by_cases hfs : o.discounts.any (fun d => d.rule_type.isFreeShipping) = true
  · rw [hfs]
    simp only [if_true]
    exact ⟨_, rfl, fun _ => rfl⟩
  · rw [Bool.not_eq_true] at hfs
    rw [hfs]
    simp only [Bool.false_eq_true, if_false]
    exact ⟨_, rfl, fun hf => applyTaxLines_subtotal_flag_off e sm _ _ hf⟩

/-- Note: `getShippingTotal` on a legacy order always succeeds, and computes
the legacy shipping total when the tax-inclusive flag is off. -/
theorem getShippingTotal_legacy (e : Env) (o : Order) (r : ℚ) (hr : o.tax_rate = some r) :
    ∃ sh, getShippingTotal e (.order o) = .ok sh ∧
      (e.taxInclusiveEnabled = false → sh = legacyShippingVal o) := by
  have hstep : ∀ (c : ℚ) (sm : ShippingMethod), sm ∈ o.shipping_methods →
      ∃ c', shippingTotalStep e (.order o) c sm = .ok c' ∧
        (e.taxInclusiveEnabled = false →
          c' = c + (if o.discounts.any (fun d => d.rule_type.isFreeShipping) then 0
                    else sm.price)) := by
    intro c sm _
    rw [shippingTotalStep]
    obtain ⟨t, ht, hsub⟩ := getShippingMethodTotals_legacy e sm o r hr
    refine ⟨c + t.subtotal, ?_, fun hf => ?_⟩
    · rw [ht, ok_bind, pure_eq_ok]
    · rw [hsub hf]
  obtain ⟨v, hv, hvv⟩ :=
    foldlM_ok_val (shippingTotalStep e (.order o))
      (fun c sm => c + (if o.discounts.any (fun d => d.rule_type.isFreeShipping) then 0
                        else sm.price))
      (e.taxInclusiveEnabled = false) o.shipping_methods hstep 0
  refine ⟨v, ?_, fun hf => ?_⟩
  · rw [getShippingTotal]
    rw [show (CartOrOrder.order o).shipping_methods = o.shipping_methods from rfl, hv]
  · rw [hvv hf]
    rfl

/-- Note: `getTaxTotal` on a legacy order factors through the closed form
`legacyTaxTotalFun` when the tax-inclusive flag is off: it depends
only on the order and the gift-card collaborator. -/
theorem getTaxTotal_legacy_closed (e : Env) (o : Order) (f : Bool) (r : ℚ)
    (hr : o.tax_rate = some r) (hflag : e.taxInclusiveEnabled = false) :
    getTaxTotal e (.order o) f = legacyTaxTotalFun e.getGiftCardTotals o r := by
  obtain ⟨g, hg, hgv⟩ := getGiftCardTotal_legacy e o r hr
  obtain ⟨s, hs, hsv⟩ := getSubtotal_legacy e o {} r hr
  obtain ⟨sh, hsh, hshv⟩ := getShippingTotal_legacy e o r hr
  obtain ⟨d, hd, hdv⟩ := getDiscountTotal_legacy e o r hr
  simp only [getTaxTotal, CartOrOrder.isCartB, Bool.false_and, Bool.false_eq_true, if_false,
    hg, ok_bind, hr, hs, hsh, hd, pure_eq_ok]
  cases hall : o.items.all (fun i => i.tax_lines.isSome) with
  | false =>
    simp only [Bool.not_false, if_true, throw_eq_error, legacyTaxTotalFun, hall]
  | true =>
    simp only [Bool.not_true, Bool.false_eq_true, if_false, legacyTaxTotalFun, hall,
      Except.ok.injEq, Option.some.injEq]
    rw [hsv hflag, hshv hflag, hdv hflag, hgv hflag]

/-- C6 amended: with the tax-inclusive-pricing feature disabled, the
tax total of a legacy order is independent of the tax-line provider
and the tax-calculation strategy — two environments agreeing on the
gift-card collaborator compute the same tax total. -/
theorem getTaxTotal_legacy_collaborator_independent (e1 e2 : Env) (o : Order) (f : Bool)
    (r : ℚ)
    (h1 : e1.taxInclusiveEnabled = false) (h2 : e2.taxInclusiveEnabled = false)
    (hgc : e1.getGiftCardTotals = e2.getGiftCardTotals)
    (hr : o.tax_rate = some r) :
    getTaxTotal e1 (.order o) f = getTaxTotal e2 (.order o) f := by
  rw [getTaxTotal_legacy_closed e1 o f r hr h1, getTaxTotal_legacy_closed e2 o f r hr h2, hgc]

/-- Witness for C6 (amended): the flag-off environments `envA0` and
`envB0` differ in their strategies yet agree on `oC6`. -/
theorem getTaxTotal_legacy_collaborator_independent_witness :
    getTaxTotal envA0 (.order oC6) false = getTaxTotal envB0 (.order oC6) false :=
  getTaxTotal_legacy_collaborator_independent envA0 envB0 oC6 false 100 rfl rfl rfl rfl

/-- Evaluation: with the tax-inclusive flag on, strategy A (returning
0) yields tax total 100 on `oC6`. -/
theorem oC6_envA_eval : getTaxTotal envA (.order oC6) false = .ok (some 100) := by
  simp +decide [getTaxTotal, getGiftCardTotal, getSubtotal, subtotalStep, getDiscountTotal,
    getLineItemAdjustmentsTotal, getShippingTotal, shippingTotalStep, getShippingMethodTotals,
    shippingMethodTotalsTax, shippingMethodTotalsApplyTaxLines, getCalculationContext,
    getAllocationMap, allocStep, getLineDiscounts, mkLineDiscount, mergedItems, allocLookup,
    CartOrOrder.toData, CartOrOrder.items, CartOrOrder.discounts, CartOrOrder.shipping_methods,
    CartOrOrder.region, CartOrOrder.gift_cards, CartOrOrder.gift_card_transactions,
    CartOrOrder.taxRate?, CartOrOrder.isOrderB, CartOrOrder.isCartB, envA, regD, smC6, oC6,
    Except.bind, Except.pure, bind, pure, rounded, jsRound_eq_floor, calculatePriceTaxAmount,
    DiscountRuleType.isFreeShipping]
  norm_num

/-- Evaluation: with the tax-inclusive flag on, strategy B (returning
50) yields tax total 50 on `oC6`. -/
theorem oC6_envB_eval : getTaxTotal envB (.order oC6) false = .ok (some 50) := by
  simp +decide [getTaxTotal, getGiftCardTotal, getSubtotal, subtotalStep, getDiscountTotal,
    getLineItemAdjustmentsTotal, getShippingTotal, shippingTotalStep, getShippingMethodTotals,
    shippingMethodTotalsTax, shippingMethodTotalsApplyTaxLines, getCalculationContext,
    getAllocationMap, allocStep, getLineDiscounts, mkLineDiscount, mergedItems, allocLookup,
    CartOrOrder.toData, CartOrOrder.items, CartOrOrder.discounts, CartOrOrder.shipping_methods,
    CartOrOrder.region, CartOrOrder.gift_cards, CartOrOrder.gift_card_transactions,
    CartOrOrder.taxRate?, CartOrOrder.isOrderB, CartOrOrder.isCartB, envA, envB, regD, smC6,
    oC6, Except.bind, Except.pure, bind, pure, rounded, jsRound_eq_floor,
    calculatePriceTaxAmount, DiscountRuleType.isFreeShipping]
  norm_num

/-- C6 counterexample: with the tax-inclusive-pricing feature enabled,
two environments identical except for the tax-calculation strategy
give different legacy tax totals on `oC6` — the strategy result leaks
into the flat-rate computation through the shipping subtotal. -/
theorem getTaxTotal_legacy_collaborator_counterexample :
    oC6.tax_rate = some 100 ∧
    envA.getTaxLines = envB.getTaxLines ∧
    envA.getGiftCardTotals = envB.getGiftCardTotals ∧
    envA.taxInclusiveEnabled = envB.taxInclusiveEnabled ∧
    getTaxTotal envA (.order oC6) false = .ok (some 100) ∧
    getTaxTotal envB (.order oC6) false = .ok (some 50) :=
  ⟨rfl, rfl, rfl, rfl, oC6_envA_eval, oC6_envB_eval⟩

/-- C10 amended: on a legacy order (non-null `tax_rate`) with some
item's tax lines undefined, `getTaxTotal` fails with exactly the
UnexpectedState error "Order tax calculations must have tax lines
joined on line items" — the joined check precedes the legacy/new
branch, although the flat-rate computation never reads tax lines.  (On
a new-system order the failure surfaces earlier, inside the subtotal
computation, with a different message: see the counterexample.) -/
theorem getTaxTotal_tax_lines_precondition (e : Env) (o : Order) (f : Bool) (r : ℚ)
    (hr : o.tax_rate = some r)
    (hmiss : ∃ li ∈ o.items, li.tax_lines = none) :
    getTaxTotal e (.order o) f =
      .error (.unexpectedState
        "Order tax calculations must have tax lines joined on line items") := by
  obtain ⟨g, hg, -⟩ := getGiftCardTotal_legacy e o r hr
  have hall : o.items.all (fun i => i.tax_lines.isSome) = false := by
    rw [List.all_eq_false]
    obtain ⟨li, hmem, hnone⟩ := hmiss
    exact ⟨li, hmem, by simp [hnone]⟩
  simp only [getTaxTotal, CartOrOrder.isCartB, Bool.false_and, Bool.false_eq_true, if_false,
    hg, ok_bind, hall, Bool.not_false, if_true, throw_eq_error]

/-- Witness for C10 (amended) on the legacy order `oC10`. -/
theorem getTaxTotal_tax_lines_precondition_witness :
    getTaxTotal env0 (.order oC10) false =
      .error (.unexpectedState
        "Order tax calculations must have tax lines joined on line items") ∧
    oC10.tax_rate = some 25 :=
  ⟨getTaxTotal_tax_lines_precondition env0 oC10 false 25 rfl
    ⟨itemA, by simp [oC10, oC7], rfl⟩, rfl⟩

/-- Evaluation: on the new-system order `oC7` (missing tax lines on
`itemA`), `getTaxTotal` fails inside the subtotal computation with the
per-item message. -/
theorem oC7_taxtotal_eval :
    getTaxTotal env0 (.order oC7) false =
      .error (.unexpectedState "Tax Lines must be joined on items to calculate taxes") := by
  simp +decide [getTaxTotal, getGiftCardTotal, getSubtotal, subtotalStep, getLineItemTotals,
    lineItemTotalsSeed, lineItemTotalsNewTaxLines, lineItemTotalsFinish, getDiscountTotal,
    getCalculationContext, getAllocationMap, allocStep, getLineDiscounts, mkLineDiscount,
    mergedItems, allocLookup, CartOrOrder.toData, CartOrOrder.items, CartOrOrder.taxRate?,
    CartOrOrder.isOrderB, CartOrOrder.isCartB, env0, regD, oC7, itemA, Except.bind,
    Except.pure, bind, pure, throw_eq_error, DiscountRuleType.isFreeShipping]

/-- C10 counterexample: on a new-system order with undefined item tax
lines the error message is a different one, so the claimed error is
not produced for every such order. -/
theorem getTaxTotal_tax_lines_precondition_counterexample :
    itemA.tax_lines = none ∧ itemA ∈ oC7.items ∧
    getTaxTotal env0 (.order oC7) false =
      .error (.unexpectedState "Tax Lines must be joined on items to calculate taxes") ∧
    getTaxTotal env0 (.order oC7) false ≠
      .error (.unexpectedState
        "Order tax calculations must have tax lines joined on line items") := by
  refine ⟨rfl, by simp [oC7], oC7_taxtotal_eval, ?_⟩
  rw [oC7_taxtotal_eval]
  simp

/-- Looking up a key in an allocation map extended by one pair. -/
theorem allocLookup_append_of_ne (m : AllocationMap) (k : String) (v : LineAllocation)
    (k' : String) (hne : k ≠ k') :
    allocLookup (m ++ [(k, v)]) k' = allocLookup m k' := by
  rw [allocLookup, allocLookup, List.find?_append]
  have h1 : List.find? (fun p => p.1 == k') [(k, v)] = none := by
    rw [List.find?_cons_of_neg]
    · rfl
    · simp [hne]
  rw [h1, Option.or_none]

/-- The fold of `getAllocationMap` over distinct item ids, starting
from a map that knows none of them, appends exactly one rounded entry
per line discount. -/
theorem allocFold_append (lds : List LineDiscountAmount) :
    ∀ m : AllocationMap,
      (∀ ld ∈ lds, allocLookup m ld.item.id = none) →
      (lds.map (fun ld => ld.item.id)).Nodup →
      lds.foldl allocStep m = m ++ lds.map allocEntry := by
  induction lds with
  | nil => intro m _ _; simp
  | cons hd tl ih =>
    intro m hnone hnd
    rw [List.foldl_cons]
    have hstep : allocStep m hd = m ++ [allocEntry hd] := by
      simp only [allocStep, hnone hd (List.mem_cons_self hd tl), allocEntry]
    rw [hstep]
    have h1 : ∀ ld ∈ tl, allocLookup (m ++ [allocEntry hd]) ld.item.id = none := by
      intro ld hld
      have hne : hd.item.id ≠ ld.item.id := by
        have hni := (List.nodup_cons.mp hnd).1
        intro hcontra
        have hmm : ld.item.id ∈ tl.map (fun l => l.item.id) :=
          List.mem_map_of_mem (fun l => l.item.id) hld
        rw [← hcontra] at hmm
        exact hni hmm
      rw [show allocEntry hd = (hd.item.id, (allocEntry hd).2) from rfl]
      rw [allocLookup_append_of_ne m hd.item.id _ ld.item.id hne]
      exact hnone ld (List.mem_cons_of_mem hd hld)
    rw [ih (m ++ [allocEntry hd]) h1 (List.nodup_cons.mp hnd).2]
    simp

/-- Looking up an item id among the appended entries finds exactly its
own entry when the ids are distinct. -/
theorem allocLookup_entries (lds : List LineDiscountAmount) (ld : LineDiscountAmount)
    (hmem : ld ∈ lds) (hnd : (lds.map (fun l => l.item.id)).Nodup) :
    allocLookup (lds.map allocEntry) ld.item.id = some (allocEntry ld).2 := by
  induction lds with
  | nil => exact absurd hmem (List.not_mem_nil ld)
  | cons hd tl ih =>
    rcases List.mem_cons.mp hmem with heq | htl
    · subst heq
      rw [List.map_cons, allocLookup, List.find?_cons_of_pos _ (by simp [allocEntry])]
      rfl
    · have hne : hd.item.id ≠ ld.item.id := by
        have hni := (List.nodup_cons.mp hnd).1
        intro hcontra
        have hmm : ld.item.id ∈ tl.map (fun l => l.item.id) :=
          List.mem_map_of_mem (fun l => l.item.id) htl
        rw [← hcontra] at hmm
        exact hni hmm
      have hskip : allocLookup ((hd :: tl).map allocEntry) ld.item.id =
          allocLookup (tl.map allocEntry) ld.item.id := by
        rw [List.map_cons, allocLookup, allocLookup, List.find?_cons_of_neg]
        simp [allocEntry, hne]
      rw [hskip]
      exact ih htl (List.nodup_cons.mp hnd).2

/-- The entry built for an item equals the specification's amount. -/
theorem allocEntry_spec (data : CalculationContextData) (li : LineItem) :
    (allocEntry (mkLineDiscount
        (data.discounts.find? (fun d => !d.rule_type.isFreeShipping)) li)).2 =
      { discount := some { amount := allocAmountSpec data li, unit_amount := jsRound (allocAmountSpec data li / (li.quantity : ℚ)) } } := by
  cases hd : data.discounts.find? (fun d => !d.rule_type.isFreeShipping) with
  | none => simp [allocEntry, mkLineDiscount, allocAmountSpec, hd]
  | some d => simp [allocEntry, mkLineDiscount, allocAmountSpec, hd]

/-- C9: without `exclude_discounts`, the allocation-map entry of any
item with positive quantity (item ids distinct) has `amount` equal to
the sum of the item's adjustments matching the first non-FREE_SHIPPING
discount (0 when the item disallows discounts) plus its null-id
adjustments, and `unit_amount = round(amount / quantity)`. -/
theorem getAllocationMap_entry (data : CalculationContextData) (li : LineItem)
    (opts : AllocationMapOptions)
    (hopts : opts.exclude_discounts = false)
    (hmem : li ∈ mergedItems data)
    (hnd : ((mergedItems data).map (fun i => i.id)).Nodup)
    (_hq : 0 < li.quantity) :
    allocLookup (getAllocationMap data opts) li.id =
      some { discount := some { amount := allocAmountSpec data li, unit_amount := jsRound (allocAmountSpec data li / (li.quantity : ℚ)) } } := by
  rw [getAllocationMap, hopts]
  simp only [Bool.false_eq_true, if_false]
  have hmap : ((getLineDiscounts data
      (data.discounts.find? (fun d => !d.rule_type.isFreeShipping))).map
        (fun l => l.item.id)) = (mergedItems data).map (fun i => i.id) := by
    simp [getLineDiscounts, List.map_map, mkLineDiscount]
  have hnd' : ((getLineDiscounts data
      (data.discounts.find? (fun d => !d.rule_type.isFreeShipping))).map
        (fun l => l.item.id)).Nodup := by
    rw [hmap]; exact hnd
  rw [allocFold_append _ [] (fun _ _ => rfl) hnd', List.nil_append]
  have hmem' : mkLineDiscount
      (data.discounts.find? (fun d => !d.rule_type.isFreeShipping)) li ∈
      getLineDiscounts data
        (data.discounts.find? (fun d => !d.rule_type.isFreeShipping)) :=
    List.mem_map_of_mem _ hmem
  have h := allocLookup_entries _ _ hmem' hnd'
  rw [allocEntry_spec data li] at h
  exact h

/-- Evaluation facts for the witness of C9 on `cC9`/`itemC9`. -/
theorem cC9_allocAmount_eval :
    allocAmountSpec (CartOrOrder.cart cC9).toData itemC9 = 57 := by
  simp +decide [allocAmountSpec, CartOrOrder.toData, cC9, itemC9,
    DiscountRuleType.isFreeShipping]
  norm_num

/-- Witness for C9 at `cC9`: the entry for `itemC9` is
`{amount := 57, unit_amount := round(57/3) = 19}`. -/
theorem getAllocationMap_entry_witness :
    allocLookup (getAllocationMap (CartOrOrder.cart cC9).toData {}) "i9" =
      some { discount := some { amount := 57, unit_amount := 19 } } ∧
    0 < itemC9.quantity := by
  have h := getAllocationMap_entry (CartOrOrder.cart cC9).toData itemC9 {} rfl
    (by simp [mergedItems, CartOrOrder.toData, cC9])
    (by simp [mergedItems, CartOrOrder.toData, cC9, itemC9])
    (by norm_num [itemC9])
  rw [cC9_allocAmount_eval] at h
  refine ⟨?_, by norm_num [itemC9]⟩
  rw [show ("i9" : String) = itemC9.id from rfl, h]
  norm_num [itemC9, jsRound_eq_floor]

end Totals
